import Mathlib

/-!
Verification development for `ommsystem.py` of AToM-OpenMM: the builders
`OMMSystem`, `OMMSystemAmberTRE`, `OMMSystemAmberABFE` and `OMMSystemAmberRBFE`
that translate a keyword dictionary (a ConfigObj control file) into a
parameterized OpenMM simulation system.

The embedding is a shallow one: each Python method becomes a Lean function on
an explicit state record.  Python exceptions and `sys.exit` are modelled by the
`PyResult` type; `float()` / `int()` parsing, truthiness, list indexing and
dictionary lookups follow Python semantics.  Numbers are modelled by the exact
fraction type `Frac` (the control-file values are plain decimal literals, and
every quantity the claims inspect arises from exact arithmetic on them);
`Frac.eqv` is equality of the represented rational values.
-/

/-- Exact fractions with executable structural arithmetic (unnormalized).
All numeric values of the Python code are modelled with this type. -/
structure Frac where
  num : Int
  den : Int
deriving DecidableEq, Repr

def Frac.ofInt (n : Int) : Frac := ⟨n, 1⟩

instance (n : Nat) : OfNat Frac n := ⟨⟨(n : Int), 1⟩⟩

def Frac.add (a b : Frac) : Frac := ⟨a.num * b.den + b.num * a.den, a.den * b.den⟩

def Frac.mul (a b : Frac) : Frac := ⟨a.num * b.num, a.den * b.den⟩

def Frac.neg (a : Frac) : Frac := ⟨-a.num, a.den⟩

def Frac.div (a b : Frac) : Frac := ⟨a.num * b.den, a.den * b.num⟩

instance : Add Frac := ⟨Frac.add⟩
instance : Mul Frac := ⟨Frac.mul⟩
instance : Neg Frac := ⟨Frac.neg⟩
instance : Div Frac := ⟨Frac.div⟩

/-- Equality of the rational values represented by two fractions. -/
def Frac.eqv (a b : Frac) : Prop := a.num * b.den = b.num * a.den

instance (a b : Frac) : Decidable (a.eqv b) := by
  unfold Frac.eqv; infer_instance

/-- Python exceptions that the translated code can raise. -/
inductive PyErr where
  | typeError (msg : String)
  | valueError (msg : String)
  | indexError (msg : String)
  | attributeError (msg : String)
deriving DecidableEq, Repr

/-- Outcome of running a piece of the Python code: normal return, process exit
via `sys.exit(1)` after printing `printed`, or an uncaught exception. -/
inductive PyResult (α : Type) where
  | ok (a : α)
  | exited (printed : String)
  | exn (e : PyErr)
deriving DecidableEq, Repr

def PyResult.bind {α β : Type} : PyResult α → (α → PyResult β) → PyResult β
  | .ok a, f => f a
  | .exited m, _ => .exited m
  | .exn e, _ => .exn e

instance : Monad PyResult where
  pure := PyResult.ok
  bind := PyResult.bind

/-- Lift an exception-or-value computation into `PyResult`. -/
def liftE {α : Type} : Except PyErr α → PyResult α
  | .ok a => .ok a
  | .error e => .exn e

/-- A ConfigObj keyword value: a plain string, or a list of strings
(comma-separated values in the control file). -/
inductive KwVal where
  | str (s : String)
  | list (xs : List String)
deriving DecidableEq, Repr

/-- Python truthiness of a keyword value: empty strings and empty lists are
falsy, everything else is truthy. -/
def KwVal.truthy : KwVal → Bool
  | .str s => !s.data.isEmpty
  | .list xs => !xs.isEmpty

/-- Iterating over a keyword value: a list yields its elements, a string
yields its characters as one-character strings. -/
def KwVal.asIter : KwVal → List String
  | .str s => s.data.map (fun c => String.mk [c])
  | .list xs => xs

/-- The keyword dictionary passed to the builders (association list, first
binding wins, mirroring a Python dict with unique keys). -/
abbrev KWDict := List (String × KwVal)

/-- `keywords.get(k)`: `None` when the key is absent. -/
def KWDict.get (d : KWDict) (k : String) : Option KwVal :=
  (List.find? (fun p => p.1 == k) d).map Prod.snd

/-- Truthiness of `keywords.get(k)` (Python `if v:` where `v` may be `None`). -/
def optTruthy : Option KwVal → Bool
  | none => false
  | some v => v.truthy

/-- Value of a decimal digit character, `none` for non-digits. -/
def digitVal (c : Char) : Option Nat :=
  let n := c.toNat
  if 48 ≤ n ∧ n ≤ 57 then some (n - 48) else none

def digitsToNatAux : Nat → List Char → Option Nat
  | acc, [] => some acc
  | acc, c :: cs =>
      match digitVal c with
      | some d => digitsToNatAux (10 * acc + d) cs
      | none => none

/-- Value of a nonempty string of decimal digits. -/
def digitsToNat : List Char → Option Nat
  | [] => none
  | c :: cs => digitsToNatAux 0 (c :: cs)

/-- Split a character list at every occurrence of `sep` (Python
`s.split(sep)` for a one-character separator: splitting the empty string
yields `[""]`). -/
def splitOnChar (sep : Char) : List Char → List (List Char)
  | [] => [[]]
  | c :: cs =>
      let rest := splitOnChar sep cs
      if c = sep then [] :: rest
      else
        match rest with
        | [] => [[c]]
        | r :: rs => (c :: r) :: rs

/-- Python `float()` on a plain decimal literal such as `12`, `-0.5`, `3.`,
`.25` (the forms appearing in control files).  `none` on anything else, which
the caller turns into a `ValueError`. -/
def parseDecimalChars (cs : List Char) : Option Frac :=
  let core : Frac × List Char :=
    match cs with
    | '-' :: r => (⟨-1, 1⟩, r)
    | '+' :: r => (⟨1, 1⟩, r)
    | r => (⟨1, 1⟩, r)
  match splitOnChar '.' core.2 with
  | [w] => (digitsToNat w).map (fun n => core.1 * Frac.ofInt n)
  | [w, f] =>
      if w.isEmpty && f.isEmpty then none
      else
        let wn := if w.isEmpty then some 0 else digitsToNat w
        let fn := if f.isEmpty then some 0 else digitsToNat f
        match wn, fn with
        | some a, some b =>
            some (core.1 * (Frac.ofInt a + Frac.ofInt b / Frac.ofInt ((10 : Int) ^ f.length)))
        | _, _ => none
  | _ => none

/-- Python `int()` on a decimal integer literal. -/
def parseIntChars : List Char → Option Int
  | '-' :: r => (digitsToNat r).map (fun n => -(n : Int))
  | '+' :: r => (digitsToNat r).map (fun n => (n : Int))
  | r => (digitsToNat r).map (fun n => (n : Int))

/-- Python `float(s)` on a string argument. -/
def floatStr (s : String) : Except PyErr Frac :=
  match parseDecimalChars s.data with
  | some q => .ok q
  | none => .error (.valueError ("could not convert string to float: " ++ s))

/-- Python `float(v)` on the result of `keywords.get(k)`: `TypeError` on
`None` and on lists, `ValueError` on non-numeric strings. -/
def pyFloat : Option KwVal → Except PyErr Frac
  | none => .error (.typeError "float() argument must be a string or a number, not NoneType")
  | some (.str s) => floatStr s
  | some (.list _) => .error (.typeError "float() argument must be a string or a number, not list")

/-- Python `int(s)` on a string. -/
def pyInt (s : String) : Except PyErr Int :=
  match parseIntChars s.data with
  | some n => .ok n
  | none => .error (.valueError ("invalid literal for int with base 10: " ++ s))

/-- `[int(i) for i in v]` over a keyword value. -/
def intListOf (v : KwVal) : Except PyErr (List Int) :=
  v.asIter.mapM pyInt

/-- `[int(i) for i in v]` where `v` may be `None` (no presence check in the
source, as for the RBFE alignment reference atoms): iterating `None` raises
`TypeError`. -/
def pyIntIter : Option KwVal → Except PyErr (List Int)
  | none => .error (.typeError "NoneType object is not iterable")
  | some v => intListOf v

/-- `v.split(',')`: only strings have `.split`; a list raises
`AttributeError`. -/
def pySplitComma : KwVal → Except PyErr (List String)
  | .str s => .ok ((splitOnChar ',' s.data).map String.mk)
  | .list _ => .error (.attributeError "list object has no attribute split")

/-- `xs[i]` on a Python list: `IndexError` when out of range. -/
def pyIndex {α : Type} (xs : List α) (i : Nat) : Except PyErr α :=
  match xs.get? i with
  | some x => .ok x
  | none => .error (.indexError "list index out of range")

/-- `kilocalorie_per_mole` expressed in kilojoules per mole: energies are
stored in kJ/mol throughout, so dividing by `kilojoules_per_mole` is the
identity and multiplying a kcal/mol value by this constant converts it. -/
def kilocalorie_per_mole : Frac := ⟨4184, 1000⟩

example : (pyFloat (KWDict.get [("A", KwVal.str "2.5")] "A")).map (fun q => decide (q.eqv ⟨5, 2⟩)) = .ok true := by rfl
example : pyFloat (KWDict.get [("A", KwVal.str "2.5")] "B")
    = .error (.typeError "float() argument must be a string or a number, not NoneType") := by rfl
example : (parseDecimalChars "-0.25".data).map (fun q => decide (q.eqv ⟨-1, 4⟩)) = some true := by rfl
example : (parseDecimalChars "22".data).map (fun q => decide (q.eqv 22)) = some true := by rfl
example : intListOf (KwVal.list ["3", "-4"]) = .ok [3, -4] := by rfl
example : pySplitComma (KwVal.str "22.0,0.0,-1.5") = .ok ["22.0", "0.0", "-1.5"] := by rfl

/-! ## The external simulation-engine objects

The OpenMM objects (`AmberPrmtopFile`, `AmberInpcrdFile`, `MonteCarloBarostat`,
`CustomBondForce`, `LangevinIntegrator`) are third-party engine primitives;
they are modelled as records holding exactly the parameters this code passes
to them.  The `ATMMetaForce` / `ATMMetaForceUtils` classes live in the
`atmmetaforce` module of the same project, which is not part of the sources
under verification, so they are modelled from the specification. -/

/-- The parsed topology of an AMBER `prmtop` file; the claims only inspect
`getNumAtoms()`. -/
structure Topology where
  numAtoms : Nat
deriving DecidableEq, Repr

/-- Opaque particle coordinates of an AMBER `inpcrd` file. -/
structure Positions where
  tag : Nat
deriving DecidableEq, Repr

/-- Opaque periodic-box vectors of an AMBER `inpcrd` file. -/
structure BoxVectors where
  tag : Nat
deriving DecidableEq, Repr

/-- An `AmberPrmtopFile`: a topology plus the forcefield forces (bonds,
angles, nonbonded, ...) that `createSystem` builds; the latter are opaque
tags, since `prmtop.createSystem(nonbondedMethod=PME, ...)` never creates a
barostat, a restraint or an ATM force. -/
structure Prmtop where
  topology : Topology
  baseForceTags : List Nat
deriving DecidableEq, Repr

/-- An `AmberInpcrdFile`: positions, and box vectors when the file has them
(`inpcrd.boxVectors` is `None` otherwise). -/
structure Inpcrd where
  positions : Positions
  boxVectors : Option BoxVectors
deriving DecidableEq, Repr

/-- Modelled from the spec: the ATM alchemical perturbation force
(`ATMMetaForce` of the `atmmetaforce` module, not under the sources being
verified).  It holds the constructor parameters (energies in kJ/mol, as
passed after the `/kilojoules_per_mole` division at the call site), a list
of per-particle parameters `(particle index, dx, dy, dz)` (displacements in
angstrom), and a force group. -/
structure ATMMetaForce where
  lambda1 : Frac
  lambda2 : Frac
  alpha : Frac
  u0 : Frac
  w0 : Frac
  umax : Frac
  ubcore : Frac
  acore : Frac
  particles : List (Int × Frac × Frac × Frac)
  forceGroup : Nat
deriving DecidableEq, Repr

/-- Modelled from the spec: `atmforce.addParticle(i, dx, dy, dz)` appends a
per-particle parameter record. -/
def ATMMetaForce.addParticle (f : ATMMetaForce) (i : Int) (dx dy dz : Frac) : ATMMetaForce :=
  { f with particles := f.particles ++ [(i, dx, dy, dz)] }

/-- Modelled from the spec: `atmforce.setForceGroup(g)`. -/
def ATMMetaForce.setForceGroup (f : ATMMetaForce) (g : Nat) : ATMMetaForce :=
  { f with forceGroup := g }

/-- Modelled from the spec: `setParticleParameters(slot, i, dx, dy, dz)`
overwrites the parameters stored at position `slot`, raising when the index
is out of range (OpenMM-style index check). -/
def setPP (ps : List (Int × Frac × Frac × Frac)) (slot : Int) (i : Int)
    (dx dy dz : Frac) : Except PyErr (List (Int × Frac × Frac × Frac)) :=
  if 0 ≤ slot ∧ slot.toNat < ps.length then
    .ok (ps.set slot.toNat (i, dx, dy, dz))
  else .error (.indexError "setParticleParameters: index out of range")

/-- The `offset` argument of `addRestraintForce`: `pyNone` is Python `None`
(keyword absent), `raw` is a present-but-falsy value passed through unparsed
(the `if ligoffset:` branch not taken), `parsed` is the parsed angstrom
vector. -/
inductive OffsetArg where
  | pyNone
  | raw (v : KwVal)
  | parsed (xs : List Frac)
deriving DecidableEq, Repr

/-- A force object attached to the system.  `base` forces are the opaque
forcefield forces of `prmtop.createSystem`; the remaining constructors are
the forces this code creates, holding exactly the parameters passed at the
call sites (force constants in the units of the call site: `kf` in
kcal/mol/A^2, `tol` in angstrom, energies in kcal/mol). -/
inductive Force where
  | base (tag : Nat)
  | restraint (ligCm : Option (List Int)) (rcptCm : Option (List Int))
      (kf : Frac) (tol : Frac) (offset : OffsetArg)
  | posRestraint (atoms : List Int) (fc : Frac) (tol : Frac) (positions : Positions)
  | alignment (ligaRef : List Int) (ligbRef : List Int)
      (kfdispl : Frac) (ktheta : Frac) (kpsi : Frac) (offset : List Frac)
  | atm (f : ATMMetaForce)
  | monteCarloBarostat (pressure : Frac) (temperature : Frac) (group : Nat) (frequency : Int)
  | customBond (energy : String) (globals : List (String × Frac)) (group : Nat)
deriving DecidableEq, Repr

/-- The OpenMM `System`: the ordered list of forces attached to it. -/
structure MMSystem where
  forces : List Force
deriving DecidableEq, Repr

/-- `system.addForce(f)`. -/
def MMSystem.addForce (s : MMSystem) (f : Force) : MMSystem :=
  { forces := s.forces ++ [f] }

/-- `prmtop.createSystem(nonbondedMethod=PME, nonbondedCutoff=1*nanometer,
constraints=HBonds)`: the external engine builds the forcefield forces. -/
def Prmtop.createSystem (p : Prmtop) : MMSystem :=
  { forces := p.baseForceTags.map Force.base }

/-- `LangevinIntegrator(temperature, frictionCoeff, stepSize)`, plus the
integration force groups: `none` models the OpenMM default of integrating
all force groups; `setIntegrationForceGroups({1,3})` stores `some [1, 3]`. -/
structure LangevinIntegrator where
  temperature : Frac
  friction : Frac
  stepsize : Frac
  integrationForceGroups : Option (List Nat)
deriving DecidableEq, Repr

/-! ## The builder state

One record holds the attributes of all builder classes; attributes a given
class never sets simply stay at their initial value. -/

structure OMMSystemState where
  system : Option MMSystem
  topology : Option Topology
  positions : Option Positions
  boxvectors : Option BoxVectors
  integrator : Option LangevinIntegrator
  keywords : KWDict
  basename : String
  parameterDict : List (String × String)
  cparams : List (String × Frac)
  frictionCoeff : Frac
  MDstepsize : Frac
  displ : Option (List Frac)
  atmforce : Option ATMMetaForce
  prmtopfile : String
  crdfile : String
deriving DecidableEq, Repr

/-- `self.cparams[k] = v` (insert or update a Python dict entry). -/
def setParam (ps : List (String × Frac)) (k : String) (v : Frac) : List (String × Frac) :=
  if ps.any (fun p => p.1 == k) then
    ps.map (fun p => if p.1 == k then (k, v) else p)
  else ps ++ [(k, v)]

/-- `d[k]` lookup on a Python dict modelled as an association list. -/
def lookupParam (ps : List (String × Frac)) (k : String) : Option Frac :=
  (List.find? (fun p => p.1 == k) ps).map Prod.snd

/-- `OMMSystem._exit` as defined (print the message, flush, `sys.exit(1)`):
this is the behavior of the function body when called with a single
argument. -/
def OMMSystem._exit {α : Type} (message : String) : PyResult α :=
  .exited message

/-- The call `self._exit(msg)` as it appears in the source: `_exit` is
declared as `def _exit(message):` with no `self` parameter, so the bound
method receives the instance as `message` and `msg` as a second positional
argument, and the call raises `TypeError` before anything is printed. -/
def selfExitCall {α : Type} (_msg : String) : PyResult α :=
  .exn (.typeError "_exit() takes 1 positional argument but 2 were given")

/-- `OMMSystem.__init__(self, basename, keywords)` (lines 21-41): records the
keywords and basename, initializes the attributes, then reads the required
`FRICTION_COEFF` and `TIME_STEP` keywords with `float()` and no presence
check.  `frictionCoeff` is stored in 1/ps and `MDstepsize` in ps, so the
stored numbers are exactly the parsed keyword values. -/
def OMMSystem.init (basename : String) (keywords : KWDict) : PyResult OMMSystemState := do
  let fc ← liftE (pyFloat (KWDict.get keywords "FRICTION_COEFF"))
  let ts ← liftE (pyFloat (KWDict.get keywords "TIME_STEP"))
  pure
    { system := none, topology := none, positions := none, boxvectors := none
      integrator := none, keywords := keywords, basename := basename
      parameterDict := [("stateid", "REStateId"), ("cycle", "RECycle"), ("mdsteps", "REMDSteps")]
      cparams := [], frictionCoeff := fc, MDstepsize := ts
      displ := none, atmforce := none, prmtopfile := "", crdfile := "" }

/-- `OMMSystemAmberTRE.__init__` (lines 51-56). -/
def OMMSystemAmberTRE.init (basename : String) (keywords : KWDict)
    (prmtopfile crdfile : String) : PyResult OMMSystemState := do
  let st ← OMMSystem.init basename keywords
  pure { st with
         prmtopfile := prmtopfile
         crdfile := crdfile
         parameterDict := st.parameterDict ++
           [("temperature", "RETemperature"), ("potential_energy", "REPotEnergy")] }

/-- `OMMSystemAmberABFE.__init__` (lines 86-93). -/
def OMMSystemAmberABFE.init (basename : String) (keywords : KWDict)
    (prmtopfile crdfile : String) : PyResult OMMSystemState := do
  let st ← OMMSystem.init basename keywords
  pure { st with
         prmtopfile := prmtopfile
         crdfile := crdfile
         parameterDict := st.parameterDict ++
           [("temperature", "RETemperature"), ("potential_energy", "REPotEnergy"),
            ("perturbation_energy", "REPertEnergy")]
         atmforce := none }

/-- `OMMSystemAmberRBFE.__init__` (lines 210-216). -/
def OMMSystemAmberRBFE.init (basename : String) (keywords : KWDict)
    (prmtopfile crdfile : String) : PyResult OMMSystemState := do
  let st ← OMMSystem.init basename keywords
  pure { st with
         prmtopfile := prmtopfile
         crdfile := crdfile
         parameterDict := st.parameterDict ++
           [("temperature", "RETemperature"), ("potential_energy", "REPotEnergy"),
            ("perturbation_energy", "REPertEnergy")] }

/-! ## The stages of `create_system`

Each stage translates one block of the Python source; the line numbers refer
to `ommsystem.py`. -/

/-- The ligand-atom-list block with presence check and `self._exit` on a
missing or empty keyword (ABFE lines 107-112 for `LIGAND_ATOMS`, RBFE lines
229-240 for `LIGAND1_ATOMS` / `LIGAND2_ATOMS`). -/
def readLigAtoms (kw : KWDict) (key msg : String) : PyResult (List Int) :=
  match KWDict.get kw key with
  | some v => if v.truthy then liftE (intListOf v) else selfExitCall msg
  | none => selfExitCall msg

/-- The optional restraint-atom-list pattern (ABFE lines 114-124, RBFE lines
243-261): a falsy or absent keyword yields `None`. -/
def readRestrAtoms (v : Option KwVal) : PyResult (Option (List Int)) :=
  match v with
  | some w =>
      if w.truthy then do
        let l ← liftE (intListOf w)
        pure (some l)
      else pure none
  | none => pure none

/-- `LIGOFFSET` handling inside the ABFE restraint branch (lines 133-135):
parsed when truthy, the raw falsy value is passed through otherwise. -/
def readLigOffset (kw : KWDict) : PyResult OffsetArg :=
  match KWDict.get kw "LIGOFFSET" with
  | none => pure OffsetArg.pyNone
  | some w =>
      if w.truthy then do
        let parts ← liftE (pySplitComma w)
        let xs ← liftE (parts.mapM floatStr)
        pure (OffsetArg.parsed xs)
      else pure (OffsetArg.raw w)

/-- ABFE CM-CM Vsite restraint block (lines 126-140): the presence flag is
computed from the raw `keywords.get` results (`is not None`), and
`atm_utils.addRestraintForce` is modelled from the spec as attaching one
restraint force with the given parameters. -/
def ABFEaddCMRestraint (kw : KWDict) (lig_atom_restr rcpt_atom_restr : Option (List Int))
    (sys : MMSystem) : PyResult MMSystem :=
  -- cmrestraints_present = (cm_rcpt_atoms is not None) and (cm_lig_atoms is not None)
  if (KWDict.get kw "RCPT_CM_ATOMS").isSome && (KWDict.get kw "LIGAND_CM_ATOMS").isSome then do
    let cmkf ← liftE (pyFloat (KWDict.get kw "CM_KF"))
    let cmtol ← liftE (pyFloat (KWDict.get kw "CM_TOL"))
    let ligoffset ← readLigOffset kw
    pure (sys.addForce (Force.restraint lig_atom_restr rcpt_atom_restr cmkf cmtol ligoffset))
  else pure sys

/-- RBFE CM-CM Vsite restraint block (lines 272-290): here the presence flag
is computed from the PARSED restraint variables (`is not None`), so a
supplied-but-empty keyword counts as absent; two restraint forces are
attached (one per ligand). -/
def RBFEaddCMRestraints (kw : KWDict)
    (lig1_atom_restr lig2_atom_restr rcpt_atom_restr : Option (List Int))
    (lig1offset lig2offset : List Frac) (sys : MMSystem) : PyResult MMSystem :=
  -- cmrestraints_present = (rcpt_atom_restr is not None) and (lig1_atom_restr
  -- is not None) and (lig2_atom_restr is not None)
  if rcpt_atom_restr.isSome && lig1_atom_restr.isSome && lig2_atom_restr.isSome then do
    let cmkf ← liftE (pyFloat (KWDict.get kw "CM_KF"))
    let cmtol ← liftE (pyFloat (KWDict.get kw "CM_TOL"))
    let sys1 := sys.addForce
      (Force.restraint lig1_atom_restr rcpt_atom_restr cmkf cmtol (OffsetArg.parsed lig1offset))
    pure (sys1.addForce
      (Force.restraint lig2_atom_restr rcpt_atom_restr cmkf cmtol (OffsetArg.parsed lig2offset)))
  else pure sys

/-- Flat-bottom positional restraints block (ABFE lines 144-149, RBFE lines
311-316); `atm_utils.addPosRestraints` is modelled from the spec as
attaching one positional-restraint force. -/
def addPosRestraintsStage (kw : KWDict) (positions : Positions) (sys : MMSystem) :
    PyResult MMSystem :=
  match KWDict.get kw "POS_RESTRAINED_ATOMS" with
  | some w =>
      if w.truthy then do
        let posrestr_atoms ← liftE (intListOf w)
        let fc ← liftE (pyFloat (KWDict.get kw "POSRE_FORCE_CONSTANT"))
        let tol ← liftE (pyFloat (KWDict.get kw "POSRE_TOLERANCE"))
        pure (sys.addForce (Force.posRestraint posrestr_atoms fc tol positions))
      else pure sys
  | none => pure sys

/-- `UBCORE` soft-core parameter (ABFE lines 162-166, RBFE lines 329-333):
optional with default `0.0 * kilocalorie_per_mole`; result in kJ/mol. -/
def readUbcore (kw : KWDict) : PyResult Frac :=
  match KWDict.get kw "UBCORE" with
  | some w =>
      if w.truthy then do
        let v ← liftE (pyFloat (some w))
        pure (v * kilocalorie_per_mole)
      else pure ((0 : Frac) * kilocalorie_per_mole)
  | none => pure ((0 : Frac) * kilocalorie_per_mole)

/-- Soft-core parameter block (ABFE lines 160-167, RBFE lines 327-334):
`UMAX` and `ACORE` are read with `float()` and no presence check; the
returned triple is `(umsc, ubcore, acore)` with energies in kJ/mol. -/
def readSoftCore (kw : KWDict) : PyResult (Frac × Frac × Frac) := do
  let umsc ← liftE (pyFloat (KWDict.get kw "UMAX"))
  let ubcore ← readUbcore kw
  let acore ← liftE (pyFloat (KWDict.get kw "ACORE"))
  pure (umsc * kilocalorie_per_mole, ubcore, acore)

/-- ABFE `DISPLACEMENT` block (lines 169-173): the presence check is
`is None`, so a present-but-empty value goes to the parse; absent exits via
`self._exit`.  Components in angstrom. -/
def ABFEreadDispl (kw : KWDict) : PyResult (List Frac) :=
  match KWDict.get kw "DISPLACEMENT" with
  | some w => do
      let parts ← liftE (pySplitComma w)
      liftE (parts.mapM floatStr)
  | none => selfExitCall "Error: DISPLACEMENT is required"

/-- RBFE `DISPLACEMENT` block (lines 264-270): here the presence check is
truthiness, so a present-but-empty value also exits via `self._exit`. -/
def RBFEreadDispl (kw : KWDict) : PyResult (List Frac) :=
  match KWDict.get kw "DISPLACEMENT" with
  | some w =>
      if w.truthy then do
        let parts ← liftE (pySplitComma w)
        liftE (parts.mapM floatStr)
      else selfExitCall "DISPLACEMENT is required"
  | none => selfExitCall "DISPLACEMENT is required"

/-- Alignment-force reference atoms (RBFE lines 293-299):
`[int(r) for r in keywords.get(key)]` with no presence check, then
`[refatoms[i] + lig_atoms[0] for i in range(3)]`. -/
def alignRefAtoms (kw : KWDict) (key : String) (lig_atoms : List Int) : PyResult (List Int) := do
  let refatoms ← liftE (pyIntIter (KWDict.get kw key))
  liftE ((List.range 3).mapM (fun i => do
    let r ← pyIndex refatoms i
    let l0 ← pyIndex lig_atoms 0
    pure (r + l0)))

/-- The `ATMMetaForce(lambda1, lambda2, alpha*kilojoules_per_mole,
u0/kilojoules_per_mole, w0coeff/kilojoules_per_mole, umsc/kilojoules_per_mole,
ubcore/kilojoules_per_mole, acore)` constructor call (ABFE line 176, RBFE
line 337): `lmbd = lambda1 = lambda2 = 0.0`, `alpha = u0 = w0coeff = 0`, and
the soft-core energies are already in kJ/mol. -/
def mkATMMetaForce (umsc ubcore acore : Frac) : ATMMetaForce :=
  { lambda1 := 0
    lambda2 := 0
    alpha := 0
    u0 := 0
    w0 := 0
    umax := umsc
    ubcore := ubcore
    acore := acore
    particles := []
    forceGroup := 0 }

/-- `for i in range(topology.getNumAtoms()): atmforce.addParticle(i, 0., 0., 0.)`
(ABFE lines 178-179, RBFE lines 339-340). -/
def ATMMetaForce.addAllParticles (f : ATMMetaForce) (n : Nat) : ATMMetaForce :=
  { f with particles := f.particles ++ (List.range n).map (fun (i : Nat) => ((i : Int), 0, 0, 0)) }

/-- `for i in lig_atoms: atmforce.setParticleParameters(i, i, d0, d1, d2)`
where `(d0, d1, d2)` is `displ[0..2]` (negated when `neg` is true, as in the
RBFE ligand-2 loop): ABFE lines 180-181, RBFE lines 341-344.  The indexing
`displ[j]` is re-evaluated on every iteration, so an over-short displacement
list only raises when the atom list is nonempty. -/
def displLoop (ps : List (Int × Frac × Frac × Frac)) (lig : List Int)
    (displ : List Frac) (neg : Bool) : Except PyErr (List (Int × Frac × Frac × Frac)) :=
  match lig with
  | [] => .ok ps
  | i :: rest => do
      let d0 ← pyIndex displ 0
      let d1 ← pyIndex displ 1
      let d2 ← pyIndex displ 2
      let ps1 ← setPP ps i i (cond neg (-d0) d0) (cond neg (-d1) d1) (cond neg (-d2) d2)
      displLoop ps1 rest displ neg

def ATMMetaForce.applyDispl (f : ATMMetaForce) (lig : List Int) (displ : List Frac)
    (neg : Bool) : Except PyErr ATMMetaForce :=
  (displLoop f.particles lig displ neg).map (fun ps => { f with particles := ps })

/-- The ASyncRE bookkeeping force (TRE lines 77-81, ABFE lines 192-196, RBFE
lines 356-360): a `CustomBondForce("1")` with one global parameter per entry
of `self.parameter`, force group 1. -/
def sforceOf (parameterDict : List (String × String)) : Force :=
  Force.customBond "1" (parameterDict.map (fun p => (p.2, (0 : Frac)))) 1

/-! ## The `create_system` methods -/

/-- `OMMSystemAmberTRE.create_system` (lines 58-83).  The
`LangevinIntegrator(temperature/kelvin, frictionCoeff/(1/picosecond),
MDstepsize/picosecond)` arguments are the plain numbers 300, the parsed
`FRICTION_COEFF` and the parsed `TIME_STEP`. -/
def OMMSystemAmberTRE.create_system (st0 : OMMSystemState) (prmtop : Prmtop)
    (inpcrd : Inpcrd) : PyResult OMMSystemState :=
  let system := prmtop.createSystem
  let topology := prmtop.topology
  let positions := inpcrd.positions
  let temperature : Frac := 300
  let system := system.addForce (Force.monteCarloBarostat 1 temperature 1 0)
  let system := system.addForce (sforceOf st0.parameterDict)
  let integrator : LangevinIntegrator :=
    { temperature := temperature
      friction := st0.frictionCoeff
      stepsize := st0.MDstepsize
      integrationForceGroups := none }
  PyResult.ok { st0 with
    system := some system
    topology := some topology
    positions := some positions
    integrator := some integrator }

/-- `OMMSystemAmberABFE.create_system` (lines 95-207). -/
def OMMSystemAmberABFE.create_system (st0 : OMMSystemState) (prmtop : Prmtop)
    (inpcrd : Inpcrd) : PyResult OMMSystemState := do
  let system := prmtop.createSystem
  let topology := prmtop.topology
  let positions := inpcrd.positions
  let boxvectors := inpcrd.boxVectors
  let lig_atoms ← readLigAtoms st0.keywords "LIGAND_ATOMS" "Error: LIGAND_ATOMS is required"
  let lig_atom_restr ← readRestrAtoms (KWDict.get st0.keywords "LIGAND_CM_ATOMS")
  let rcpt_atom_restr ← readRestrAtoms (KWDict.get st0.keywords "RCPT_CM_ATOMS")
  let system ← ABFEaddCMRestraint st0.keywords lig_atom_restr rcpt_atom_restr system
  let system ← addPosRestraintsStage st0.keywords positions system
  let temperature : Frac := 300
  let softcore ← readSoftCore st0.keywords
  let displ ← ABFEreadDispl st0.keywords
  let atmforce0 := (mkATMMetaForce softcore.1 softcore.2.1 softcore.2.2).addAllParticles
    topology.numAtoms
  let atmforce1 ← liftE (atmforce0.applyDispl lig_atoms displ false)
  let atmforce := atmforce1.setForceGroup 3
  let system := system.addForce (Force.atm atmforce)
  let system := system.addForce (Force.monteCarloBarostat 1 temperature 1 0)
  let system := system.addForce (sforceOf st0.parameterDict)
  let integrator : LangevinIntegrator :=
    { temperature := temperature
      friction := st0.frictionCoeff
      stepsize := st0.MDstepsize
      integrationForceGroups := some [1, 3] }
  let cparams := setParam (setParam (setParam st0.cparams
    "ATMUmax" softcore.1) "ATMUbcore" softcore.2.1) "ATMAcore" softcore.2.2
  pure { st0 with
    system := some system
    topology := some topology
    positions := some positions
    boxvectors := boxvectors
    integrator := some integrator
    atmforce := some atmforce
    displ := some displ
    cparams := cparams }

/-- `OMMSystemAmberRBFE.create_system` (lines 218-370).  The auxiliary
attributes `self.prmtop`, `self.inpcrd`, `self.refatoms1`, `self.refatoms2`,
`self.lig1offset`, `self.lig2offset` are intermediate values not read by any
claim and are represented by the corresponding local bindings. -/
def OMMSystemAmberRBFE.create_system (st0 : OMMSystemState) (prmtop : Prmtop)
    (inpcrd : Inpcrd) : PyResult OMMSystemState := do
  let system := prmtop.createSystem
  let topology := prmtop.topology
  let positions := inpcrd.positions
  let lig1_atoms ← readLigAtoms st0.keywords "LIGAND1_ATOMS" "Error: LIGAND1_ATOMS is required"
  let lig2_atoms ← readLigAtoms st0.keywords "LIGAND2_ATOMS" "Error: LIGAND2_ATOMS is required"
  let lig1_atom_restr ← readRestrAtoms (KWDict.get st0.keywords "REST_LIGAND1_CMLIG_ATOMS")
  let lig2_atom_restr ← readRestrAtoms (KWDict.get st0.keywords "REST_LIGAND2_CMLIG_ATOMS")
  let rcpt_atom_restr ← readRestrAtoms (KWDict.get st0.keywords "REST_LIGAND_CMREC_ATOMS")
  let displ ← RBFEreadDispl st0.keywords
  let lig1offset := displ.map (fun d => (0 : Frac) * d)
  let lig2offset := displ.map (fun d => d)
  let system ← RBFEaddCMRestraints st0.keywords lig1_atom_restr lig2_atom_restr
    rcpt_atom_restr lig1offset lig2offset system
  let lig1_ref_atoms ← alignRefAtoms st0.keywords "ALIGN_LIGAND1_REF_ATOMS" lig1_atoms
  let lig2_ref_atoms ← alignRefAtoms st0.keywords "ALIGN_LIGAND2_REF_ATOMS" lig2_atoms
  let kfdispl ← liftE (pyFloat (KWDict.get st0.keywords "ALIGN_KF_SEP"))
  let ktheta ← liftE (pyFloat (KWDict.get st0.keywords "ALIGN_K_THETA"))
  let kpsi ← liftE (pyFloat (KWDict.get st0.keywords "ALIGN_K_PSI"))
  let system := system.addForce
    (Force.alignment lig1_ref_atoms lig2_ref_atoms kfdispl ktheta kpsi lig2offset)
  let system ← addPosRestraintsStage st0.keywords positions system
  let temperature : Frac := 300
  let softcore ← readSoftCore st0.keywords
  let atmforce0 := (mkATMMetaForce softcore.1 softcore.2.1 softcore.2.2).addAllParticles
    topology.numAtoms
  let atmforce1 ← liftE (atmforce0.applyDispl lig1_atoms displ false)
  let atmforce2 ← liftE (atmforce1.applyDispl lig2_atoms displ true)
  let atmforce := atmforce2.setForceGroup 3
  let system := system.addForce (Force.atm atmforce)
  let system := system.addForce (Force.monteCarloBarostat 1 temperature 1 0)
  let system := system.addForce (sforceOf st0.parameterDict)
  let integrator : LangevinIntegrator :=
    { temperature := temperature
      friction := st0.frictionCoeff
      stepsize := st0.MDstepsize
      integrationForceGroups := some [1, 3] }
  let cparams := setParam (setParam (setParam st0.cparams
    "ATMUmax" softcore.1) "ATMUbcore" softcore.2.1) "ATMAcore" softcore.2.2
  pure { st0 with
    system := some system
    topology := some topology
    positions := some positions
    integrator := some integrator
    atmforce := some atmforce
    displ := some displ
    cparams := cparams }

/-! ## Full runs and concrete example inputs -/

def PyResult.getOk {α : Type} (r : PyResult α) (d : α) : α :=
  match r with
  | .ok a => a
  | _ => d

/-- `__init__` followed by `create_system` for the TRE builder. -/
def runTRE (b : String) (kw : KWDict) (p : Prmtop) (i : Inpcrd) : PyResult OMMSystemState :=
  PyResult.bind (OMMSystemAmberTRE.init b kw "x.prmtop" "x.inpcrd")
    (fun st => OMMSystemAmberTRE.create_system st p i)

/-- `__init__` followed by `create_system` for the ABFE builder. -/
def runABFE (b : String) (kw : KWDict) (p : Prmtop) (i : Inpcrd) : PyResult OMMSystemState :=
  PyResult.bind (OMMSystemAmberABFE.init b kw "x.prmtop" "x.inpcrd")
    (fun st => OMMSystemAmberABFE.create_system st p i)

/-- `__init__` followed by `create_system` for the RBFE builder. -/
def runRBFE (b : String) (kw : KWDict) (p : Prmtop) (i : Inpcrd) : PyResult OMMSystemState :=
  PyResult.bind (OMMSystemAmberRBFE.init b kw "x.prmtop" "x.inpcrd")
    (fun st => OMMSystemAmberRBFE.create_system st p i)

/-- A small example topology: four atoms. -/
def egPrmtop : Prmtop := ⟨⟨4⟩, [0, 1]⟩

/-- Example coordinate file with box vectors. -/
def egInpcrd : Inpcrd := ⟨⟨0⟩, some ⟨1⟩⟩

/-- Example coordinate file without box vectors. -/
def egInpcrdNoBox : Inpcrd := ⟨⟨0⟩, none⟩

/-- The keywords every builder needs in `__init__`. -/
def kwBase : KWDict := [("FRICTION_COEFF", KwVal.str "1"), ("TIME_STEP", KwVal.str "0.002")]

/-- A complete ABFE keyword dictionary. -/
def kwABFE : KWDict := kwBase ++
  [("LIGAND_ATOMS", KwVal.list ["0", "1"]),
   ("DISPLACEMENT", KwVal.str "22.0,0.0,0.0"),
   ("UMAX", KwVal.str "200"),
   ("ACORE", KwVal.str "0.062"),
   ("UBCORE", KwVal.str "100")]

/-- A complete RBFE keyword dictionary. -/
def kwRBFE : KWDict := kwBase ++
  [("LIGAND1_ATOMS", KwVal.list ["0", "1"]),
   ("LIGAND2_ATOMS", KwVal.list ["2", "3"]),
   ("DISPLACEMENT", KwVal.str "22.0,0.0,0.0"),
   ("ALIGN_LIGAND1_REF_ATOMS", KwVal.list ["0", "1", "0"]),
   ("ALIGN_LIGAND2_REF_ATOMS", KwVal.list ["0", "1", "0"]),
   ("ALIGN_KF_SEP", KwVal.str "2.5"),
   ("ALIGN_K_THETA", KwVal.str "10"),
   ("ALIGN_K_PSI", KwVal.str "10"),
   ("UMAX", KwVal.str "200"),
   ("ACORE", KwVal.str "0.062")]

example : ∃ st, runTRE "t" kwBase egPrmtop egInpcrdNoBox = .ok st := ⟨_, rfl⟩
example : ∃ st, runABFE "t" kwABFE egPrmtop egInpcrd = .ok st := ⟨_, rfl⟩
example : ∃ st, runRBFE "t" kwRBFE egPrmtop egInpcrdNoBox = .ok st := ⟨_, rfl⟩
example :
    runABFE "t" (kwBase ++
      [("DISPLACEMENT", KwVal.str "22.0,0.0,0.0"),
       ("UMAX", KwVal.str "200"), ("ACORE", KwVal.str "0.062")]) egPrmtop egInpcrd
    = .exn (.typeError "_exit() takes 1 positional argument but 2 were given") := by rfl
example :
    OMMSystem.init "t" [("TIME_STEP", KwVal.str "0.002")]
    = .exn (.typeError "float() argument must be a string or a number, not NoneType") := by rfl

/-! ## Projections and predicates used by the claims -/

def Force.isRestraint : Force → Bool
  | .restraint .. => true
  | _ => false

def Force.isBarostat : Force → Bool
  | .monteCarloBarostat .. => true
  | _ => false

/-- Whether some CM-CM Vsite restraint force is attached to the system. -/
def MMSystem.hasRestraint (s : MMSystem) : Bool := s.forces.any Force.isRestraint

/-- The Monte Carlo barostats attached to the system. -/
def MMSystem.barostats (s : MMSystem) : List Force := s.forces.filter Force.isBarostat

/-! ## Inversion lemmas for the monadic plumbing -/

theorem PyResult.bind_ok {α β : Type} {x : PyResult α} {f : α → PyResult β} {b : β}
    (h : x >>= f = .ok b) : ∃ a, x = .ok a ∧ f a = .ok b := by
  cases x with
  | ok a => exact ⟨a, rfl, h⟩
  | exited m => exact absurd h (by simp [Bind.bind, PyResult.bind])
  | exn e => exact absurd h (by simp [Bind.bind, PyResult.bind])

theorem exceptBind_ok {α β : Type} {x : Except PyErr α} {f : α → Except PyErr β} {b : β}
    (h : x >>= f = .ok b) : ∃ a, x = .ok a ∧ f a = .ok b := by
  cases x with
  | ok a => exact ⟨a, rfl, h⟩
  | error e => exact absurd h (by simp [Bind.bind, Except.bind])

theorem liftE_ok {α : Type} {e : Except PyErr α} {a : α} (h : liftE e = .ok a) :
    e = .ok a := by
  cases e with
  | ok x => cases h; rfl
  | error err => exact PyResult.noConfusion h

theorem pyResult_pure_ok {α : Type} {a b : α} (h : (pure a : PyResult α) = .ok b) : a = b :=
  PyResult.ok.injEq a b ▸ h

/-! ## Characterization of a successful `create_system`, per builder -/

/-- Successful `OMMSystemAmberTRE.create_system` determines the final state
completely. -/
theorem TRE_create_ok {st0 : OMMSystemState} {p : Prmtop} {i : Inpcrd}
    {st : OMMSystemState} (h : OMMSystemAmberTRE.create_system st0 p i = .ok st) :
    st = { st0 with
      system := some ((p.createSystem.addForce
        (Force.monteCarloBarostat 1 300 1 0)).addForce (sforceOf st0.parameterDict))
      topology := some p.topology
      positions := some i.positions
      integrator := some ⟨300, st0.frictionCoeff, st0.MDstepsize, none⟩ } :=
  ((PyResult.ok.injEq _ _).mp h).symm

/-- Successful `OMMSystemAmberABFE.create_system` decomposes into successful
stages and determines the final state. -/
theorem ABFE_create_ok {st0 : OMMSystemState} {p : Prmtop} {i : Inpcrd}
    {st : OMMSystemState} (h : OMMSystemAmberABFE.create_system st0 p i = .ok st) :
    ∃ (lig : List Int) (ligR rcptR : Option (List Int)) (sys1 sys2 : MMSystem)
      (sc : Frac × Frac × Frac) (displ : List Frac) (atmf1 : ATMMetaForce),
      readLigAtoms st0.keywords "LIGAND_ATOMS" "Error: LIGAND_ATOMS is required" = .ok lig ∧
      readRestrAtoms (KWDict.get st0.keywords "LIGAND_CM_ATOMS") = .ok ligR ∧
      readRestrAtoms (KWDict.get st0.keywords "RCPT_CM_ATOMS") = .ok rcptR ∧
      ABFEaddCMRestraint st0.keywords ligR rcptR p.createSystem = .ok sys1 ∧
      addPosRestraintsStage st0.keywords i.positions sys1 = .ok sys2 ∧
      readSoftCore st0.keywords = .ok sc ∧
      ABFEreadDispl st0.keywords = .ok displ ∧
      ((mkATMMetaForce sc.1 sc.2.1 sc.2.2).addAllParticles p.topology.numAtoms).applyDispl
        lig displ false = .ok atmf1 ∧
      st = { st0 with
        system := some (((sys2.addForce (Force.atm (atmf1.setForceGroup 3))).addForce
          (Force.monteCarloBarostat 1 300 1 0)).addForce (sforceOf st0.parameterDict))
        topology := some p.topology
        positions := some i.positions
        boxvectors := i.boxVectors
        integrator := some ⟨300, st0.frictionCoeff, st0.MDstepsize, some [1, 3]⟩
        atmforce := some (atmf1.setForceGroup 3)
        displ := some displ
        cparams := setParam (setParam (setParam st0.cparams "ATMUmax" sc.1)
          "ATMUbcore" sc.2.1) "ATMAcore" sc.2.2 } := by
  unfold OMMSystemAmberABFE.create_system at h
  obtain ⟨lig, h1, h⟩ := PyResult.bind_ok h
  obtain ⟨ligR, h2, h⟩ := PyResult.bind_ok h
  obtain ⟨rcptR, h3, h⟩ := PyResult.bind_ok h
  obtain ⟨sys1, h4, h⟩ := PyResult.bind_ok h
  obtain ⟨sys2, h5, h⟩ := PyResult.bind_ok h
  obtain ⟨sc, h6, h⟩ := PyResult.bind_ok h
  obtain ⟨displ, h7, h⟩ := PyResult.bind_ok h
  obtain ⟨atmf1, h8, h⟩ := PyResult.bind_ok h
  exact ⟨lig, ligR, rcptR, sys1, sys2, sc, displ, atmf1,
    h1, h2, h3, h4, h5, h6, h7, liftE_ok h8, (pyResult_pure_ok h).symm⟩

/-- Successful `OMMSystemAmberRBFE.create_system` decomposes into successful
stages and determines the final state. -/
theorem RBFE_create_ok {st0 : OMMSystemState} {p : Prmtop} {i : Inpcrd}
    {st : OMMSystemState} (h : OMMSystemAmberRBFE.create_system st0 p i = .ok st) :
    ∃ (lig1 lig2 : List Int) (lig1R lig2R rcptR : Option (List Int))
      (displ : List Frac) (sys1 : MMSystem) (ref1 ref2 : List Int)
      (kfdispl ktheta kpsi : Frac) (sys2 : MMSystem)
      (sc : Frac × Frac × Frac) (atmf1 atmf2 : ATMMetaForce),
      readLigAtoms st0.keywords "LIGAND1_ATOMS" "Error: LIGAND1_ATOMS is required" = .ok lig1 ∧
      readLigAtoms st0.keywords "LIGAND2_ATOMS" "Error: LIGAND2_ATOMS is required" = .ok lig2 ∧
      readRestrAtoms (KWDict.get st0.keywords "REST_LIGAND1_CMLIG_ATOMS") = .ok lig1R ∧
      readRestrAtoms (KWDict.get st0.keywords "REST_LIGAND2_CMLIG_ATOMS") = .ok lig2R ∧
      readRestrAtoms (KWDict.get st0.keywords "REST_LIGAND_CMREC_ATOMS") = .ok rcptR ∧
      RBFEreadDispl st0.keywords = .ok displ ∧
      RBFEaddCMRestraints st0.keywords lig1R lig2R rcptR
        (displ.map (fun d => (0 : Frac) * d)) (displ.map (fun d => d))
        p.createSystem = .ok sys1 ∧
      alignRefAtoms st0.keywords "ALIGN_LIGAND1_REF_ATOMS" lig1 = .ok ref1 ∧
      alignRefAtoms st0.keywords "ALIGN_LIGAND2_REF_ATOMS" lig2 = .ok ref2 ∧
      pyFloat (KWDict.get st0.keywords "ALIGN_KF_SEP") = .ok kfdispl ∧
      pyFloat (KWDict.get st0.keywords "ALIGN_K_THETA") = .ok ktheta ∧
      pyFloat (KWDict.get st0.keywords "ALIGN_K_PSI") = .ok kpsi ∧
      addPosRestraintsStage st0.keywords i.positions
        (sys1.addForce (Force.alignment ref1 ref2 kfdispl ktheta kpsi
          (displ.map (fun d => d)))) = .ok sys2 ∧
      readSoftCore st0.keywords = .ok sc ∧
      ((mkATMMetaForce sc.1 sc.2.1 sc.2.2).addAllParticles p.topology.numAtoms).applyDispl
        lig1 displ false = .ok atmf1 ∧
      atmf1.applyDispl lig2 displ true = .ok atmf2 ∧
      st = { st0 with
        system := some (((sys2.addForce (Force.atm (atmf2.setForceGroup 3))).addForce
          (Force.monteCarloBarostat 1 300 1 0)).addForce (sforceOf st0.parameterDict))
        topology := some p.topology
        positions := some i.positions
        integrator := some ⟨300, st0.frictionCoeff, st0.MDstepsize, some [1, 3]⟩
        atmforce := some (atmf2.setForceGroup 3)
        displ := some displ
        cparams := setParam (setParam (setParam st0.cparams "ATMUmax" sc.1)
          "ATMUbcore" sc.2.1) "ATMAcore" sc.2.2 } := by
  unfold OMMSystemAmberRBFE.create_system at h
  obtain ⟨lig1, h1, h⟩ := PyResult.bind_ok h
  obtain ⟨lig2, h2, h⟩ := PyResult.bind_ok h
  obtain ⟨lig1R, h3, h⟩ := PyResult.bind_ok h
  obtain ⟨lig2R, h4, h⟩ := PyResult.bind_ok h
  obtain ⟨rcptR, h5, h⟩ := PyResult.bind_ok h
  obtain ⟨displ, h6, h⟩ := PyResult.bind_ok h
  obtain ⟨sys1, h7, h⟩ := PyResult.bind_ok h
  obtain ⟨ref1, h8, h⟩ := PyResult.bind_ok h
  obtain ⟨ref2, h9, h⟩ := PyResult.bind_ok h
  obtain ⟨kfdispl, h10, h⟩ := PyResult.bind_ok h
  obtain ⟨ktheta, h11, h⟩ := PyResult.bind_ok h
  obtain ⟨kpsi, h12, h⟩ := PyResult.bind_ok h
  obtain ⟨sys2, h13, h⟩ := PyResult.bind_ok h
  obtain ⟨sc, h14, h⟩ := PyResult.bind_ok h
  obtain ⟨atmf1, h15, h⟩ := PyResult.bind_ok h
  obtain ⟨atmf2, h16, h⟩ := PyResult.bind_ok h
  exact ⟨lig1, lig2, lig1R, lig2R, rcptR, displ, sys1, ref1, ref2,
    kfdispl, ktheta, kpsi, sys2, sc, atmf1, atmf2,
    h1, h2, h3, h4, h5, h6, h7, h8, h9, liftE_ok h10, liftE_ok h11, liftE_ok h12,
    h13, h14, liftE_ok h15, liftE_ok h16, (pyResult_pure_ok h).symm⟩

/-- Successful `OMMSystem.__init__` determines the base state. -/
theorem OMMSystem_init_ok {b : String} {kw : KWDict} {st : OMMSystemState}
    (h : OMMSystem.init b kw = .ok st) :
    ∃ fc ts, pyFloat (KWDict.get kw "FRICTION_COEFF") = .ok fc ∧
      pyFloat (KWDict.get kw "TIME_STEP") = .ok ts ∧
      st = { system := none, topology := none, positions := none, boxvectors := none
             integrator := none, keywords := kw, basename := b
             parameterDict := [("stateid", "REStateId"), ("cycle", "RECycle"),
               ("mdsteps", "REMDSteps")]
             cparams := [], frictionCoeff := fc, MDstepsize := ts
             displ := none, atmforce := none, prmtopfile := "", crdfile := "" } := by
  unfold OMMSystem.init at h
  obtain ⟨fc, h1, h⟩ := PyResult.bind_ok h
  obtain ⟨ts, h2, h⟩ := PyResult.bind_ok h
  exact ⟨fc, ts, liftE_ok h1, liftE_ok h2, (pyResult_pure_ok h).symm⟩

theorem TREinit_ok {b : String} {kw : KWDict} {pf cf : String} {st : OMMSystemState}
    (h : OMMSystemAmberTRE.init b kw pf cf = .ok st) :
    ∃ st', OMMSystem.init b kw = .ok st' ∧
      st = { st' with
             prmtopfile := pf
             crdfile := cf
             parameterDict := st'.parameterDict ++
               [("temperature", "RETemperature"), ("potential_energy", "REPotEnergy")] } := by
  unfold OMMSystemAmberTRE.init at h
  obtain ⟨st', h1, h⟩ := PyResult.bind_ok h
  exact ⟨st', h1, (pyResult_pure_ok h).symm⟩

theorem ABFEinit_ok {b : String} {kw : KWDict} {pf cf : String} {st : OMMSystemState}
    (h : OMMSystemAmberABFE.init b kw pf cf = .ok st) :
    ∃ st', OMMSystem.init b kw = .ok st' ∧
      st = { st' with
             prmtopfile := pf
             crdfile := cf
             parameterDict := st'.parameterDict ++
               [("temperature", "RETemperature"), ("potential_energy", "REPotEnergy"),
                ("perturbation_energy", "REPertEnergy")]
             atmforce := none } := by
  unfold OMMSystemAmberABFE.init at h
  obtain ⟨st', h1, h⟩ := PyResult.bind_ok h
  exact ⟨st', h1, (pyResult_pure_ok h).symm⟩

theorem RBFEinit_ok {b : String} {kw : KWDict} {pf cf : String} {st : OMMSystemState}
    (h : OMMSystemAmberRBFE.init b kw pf cf = .ok st) :
    ∃ st', OMMSystem.init b kw = .ok st' ∧
      st = { st' with
             prmtopfile := pf
             crdfile := cf
             parameterDict := st'.parameterDict ++
               [("temperature", "RETemperature"), ("potential_energy", "REPotEnergy"),
                ("perturbation_energy", "REPertEnergy")] } := by
  unfold OMMSystemAmberRBFE.init at h
  obtain ⟨st', h1, h⟩ := PyResult.bind_ok h
  exact ⟨st', h1, (pyResult_pure_ok h).symm⟩

/-- The fields of the state after any of the three subclass `__init__`s. -/
theorem init_fields {b : String} {kw : KWDict} {pf cf : String} {st : OMMSystemState}
    (h : OMMSystemAmberTRE.init b kw pf cf = .ok st ∨
         OMMSystemAmberABFE.init b kw pf cf = .ok st ∨
         OMMSystemAmberRBFE.init b kw pf cf = .ok st) :
    st.keywords = kw ∧ st.boxvectors = none ∧ st.cparams = [] ∧
    pyFloat (KWDict.get kw "FRICTION_COEFF") = .ok st.frictionCoeff ∧
    pyFloat (KWDict.get kw "TIME_STEP") = .ok st.MDstepsize := by
  have base : ∀ st'' : OMMSystemState, OMMSystem.init b kw = .ok st'' →
      st''.keywords = kw ∧ st''.boxvectors = none ∧ st''.cparams = [] ∧
      pyFloat (KWDict.get kw "FRICTION_COEFF") = .ok st''.frictionCoeff ∧
      pyFloat (KWDict.get kw "TIME_STEP") = .ok st''.MDstepsize := by
    intro st'' h''
    obtain ⟨fc, ts, hfc, hts, rfl⟩ := OMMSystem_init_ok h''
    exact ⟨rfl, rfl, rfl, hfc, hts⟩
  rcases h with h | h | h
  · obtain ⟨st', h1, rfl⟩ := TREinit_ok h
    simpa using base st' h1
  · obtain ⟨st', h1, rfl⟩ := ABFEinit_ok h
    simpa using base st' h1
  · obtain ⟨st', h1, rfl⟩ := RBFEinit_ok h
    simpa using base st' h1

/-! ## Force bookkeeping lemmas -/

theorem addForce_hasRestraint (s : MMSystem) (f : Force) :
    (s.addForce f).hasRestraint = (s.hasRestraint || f.isRestraint) := by
  simp [MMSystem.addForce, MMSystem.hasRestraint]

theorem addForce_barostats (s : MMSystem) (f : Force) :
    (s.addForce f).barostats = s.barostats ++ (if f.isBarostat then [f] else []) := by
  by_cases hb : f.isBarostat <;>
    simp [MMSystem.addForce, MMSystem.barostats, List.filter_append, hb]

theorem createSystem_hasRestraint (p : Prmtop) : p.createSystem.hasRestraint = false := by
  simp [Prmtop.createSystem, MMSystem.hasRestraint, List.any_map, Function.comp,
    Force.isRestraint]

theorem createSystem_barostats (p : Prmtop) : p.createSystem.barostats = [] := by
  simp [Prmtop.createSystem, MMSystem.barostats, List.filter_map, Function.comp,
    Force.isBarostat]

/-- A successful positional-restraint stage leaves the system unchanged or
appends one positional-restraint force. -/
theorem addPos_ok_cases {kw : KWDict} {pos : Positions} {sys sys' : MMSystem}
    (h : addPosRestraintsStage kw pos sys = .ok sys') :
    sys' = sys ∨ ∃ atoms fc tol, sys' = sys.addForce (Force.posRestraint atoms fc tol pos) := by
  unfold addPosRestraintsStage at h
  split at h
  · split at h
    · obtain ⟨atoms, _, h⟩ := PyResult.bind_ok h
      obtain ⟨fc, _, h⟩ := PyResult.bind_ok h
      obtain ⟨tol, _, h⟩ := PyResult.bind_ok h
      exact Or.inr ⟨atoms, fc, tol, (pyResult_pure_ok h).symm⟩
    · exact Or.inl (pyResult_pure_ok h).symm
  · exact Or.inl (pyResult_pure_ok h).symm

/-- A successful ABFE CM-restraint stage appends exactly one restraint force
when both raw keywords are present, and nothing otherwise. -/
theorem ABFEaddCM_ok_cases {kw : KWDict} {ligR rcptR : Option (List Int)}
    {sys sys' : MMSystem} (h : ABFEaddCMRestraint kw ligR rcptR sys = .ok sys') :
    (((KWDict.get kw "RCPT_CM_ATOMS").isSome && (KWDict.get kw "LIGAND_CM_ATOMS").isSome) = true ∧
      ∃ kf tol off, sys' = sys.addForce (Force.restraint ligR rcptR kf tol off)) ∨
    (((KWDict.get kw "RCPT_CM_ATOMS").isSome && (KWDict.get kw "LIGAND_CM_ATOMS").isSome) = false ∧
      sys' = sys) := by
  unfold ABFEaddCMRestraint at h
  split at h
  next hcond =>
    obtain ⟨kf, _, h⟩ := PyResult.bind_ok h
    obtain ⟨tol, _, h⟩ := PyResult.bind_ok h
    obtain ⟨off, _, h⟩ := PyResult.bind_ok h
    exact Or.inl ⟨hcond, kf, tol, off, (pyResult_pure_ok h).symm⟩
  next hcond =>
    exact Or.inr ⟨by simpa using hcond, (pyResult_pure_ok h).symm⟩

/-- A successful RBFE CM-restraint stage appends exactly two restraint forces
when all three parsed restraint-atom lists are non-`None`, and nothing
otherwise. -/
theorem RBFEaddCM_ok_cases {kw : KWDict} {lig1R lig2R rcptR : Option (List Int)}
    {o1 o2 : List Frac} {sys sys' : MMSystem}
    (h : RBFEaddCMRestraints kw lig1R lig2R rcptR o1 o2 sys = .ok sys') :
    ((rcptR.isSome && lig1R.isSome && lig2R.isSome) = true ∧
      ∃ kf tol, sys' = (sys.addForce
        (Force.restraint lig1R rcptR kf tol (OffsetArg.parsed o1))).addForce
        (Force.restraint lig2R rcptR kf tol (OffsetArg.parsed o2))) ∨
    ((rcptR.isSome && lig1R.isSome && lig2R.isSome) = false ∧ sys' = sys) := by
  unfold RBFEaddCMRestraints at h
  split at h
  next hcond =>
    obtain ⟨kf, _, h⟩ := PyResult.bind_ok h
    obtain ⟨tol, _, h⟩ := PyResult.bind_ok h
    exact Or.inl ⟨hcond, kf, tol, (pyResult_pure_ok h).symm⟩
  next hcond =>
    exact Or.inr ⟨by simpa using hcond, (pyResult_pure_ok h).symm⟩

/-- The parsed optional restraint-atom list is non-`None` exactly when the
keyword value is truthy. -/
theorem readRestrAtoms_isSome {v : Option KwVal} {r : Option (List Int)}
    (h : readRestrAtoms v = .ok r) : r.isSome = optTruthy v := by
  cases v with
  | none =>
      simp only [readRestrAtoms] at h
      rw [← pyResult_pure_ok h]
      rfl
  | some w =>
      simp only [readRestrAtoms] at h
      split at h
      next ht =>
        obtain ⟨l, _, h⟩ := PyResult.bind_ok h
        rw [← pyResult_pure_ok h]
        simp [optTruthy, ht]
      next ht =>
        rw [← pyResult_pure_ok h]
        have hw : w.truthy = false := by
          cases hw : w.truthy
          · rfl
          · exact absurd hw ht
        simp [optTruthy, hw]

/-! ## Characterization of the displacement loop -/

theorem setPP_ok {ps : List (Int × Frac × Frac × Frac)} {slot i : Int} {dx dy dz : Frac}
    {qs : List (Int × Frac × Frac × Frac)} (h : setPP ps slot i dx dy dz = .ok qs) :
    0 ≤ slot ∧ slot.toNat < ps.length ∧ qs = ps.set slot.toNat (i, dx, dy, dz) := by
  unfold setPP at h
  split at h
  next hc =>
    cases h
    exact ⟨hc.1, hc.2, rfl⟩
  next hc => exact absurd h (by simp)

theorem displLoop_length {lig : List Int} {ps qs : List (Int × Frac × Frac × Frac)}
    {displ : List Frac} {neg : Bool} (h : displLoop ps lig displ neg = .ok qs) :
    qs.length = ps.length := by
  induction lig generalizing ps with
  | nil =>
      simp only [displLoop] at h
      cases h
      rfl
  | cons i rest ih =>
      unfold displLoop at h
      obtain ⟨d0, _, h⟩ := exceptBind_ok h
      obtain ⟨d1, _, h⟩ := exceptBind_ok h
      obtain ⟨d2, _, h⟩ := exceptBind_ok h
      obtain ⟨ps1, hset, h⟩ := exceptBind_ok h
      obtain ⟨_, _, rfl⟩ := setPP_ok hset
      rw [ih h]
      exact List.length_set ..

/-- Particles whose index is not in the atom list keep their parameters. -/
theorem displLoop_get_notMem {lig : List Int} {ps qs : List (Int × Frac × Frac × Frac)}
    {displ : List Frac} {neg : Bool} {k : Nat}
    (h : displLoop ps lig displ neg = .ok qs) (hk : (k : Int) ∉ lig) :
    qs.get? k = ps.get? k := by
  induction lig generalizing ps with
  | nil =>
      simp only [displLoop] at h
      cases h
      rfl
  | cons i rest ih =>
      unfold displLoop at h
      obtain ⟨d0, _, h⟩ := exceptBind_ok h
      obtain ⟨d1, _, h⟩ := exceptBind_ok h
      obtain ⟨d2, _, h⟩ := exceptBind_ok h
      obtain ⟨ps1, hset, h⟩ := exceptBind_ok h
      obtain ⟨hge, hlt, rfl⟩ := setPP_ok hset
      rw [ih h (fun m => hk (List.mem_cons_of_mem _ m))]
      apply List.get?_set_ne
      intro he
      exact hk (List.mem_cons.mpr (Or.inl (by
        rw [← he, Int.toNat_of_nonneg hge])))

/-- Particles whose index is in the atom list receive the (possibly negated)
displacement components, and their particle index stays the atom index. -/
theorem displLoop_get_mem {lig : List Int} {ps qs : List (Int × Frac × Frac × Frac)}
    {displ : List Frac} {neg : Bool} {k : Nat}
    (h : displLoop ps lig displ neg = .ok qs) (hk : (k : Int) ∈ lig) :
    ∃ d0 d1 d2, pyIndex displ 0 = .ok d0 ∧ pyIndex displ 1 = .ok d1 ∧
      pyIndex displ 2 = .ok d2 ∧
      qs.get? k = some ((k : Int), cond neg (-d0) d0, cond neg (-d1) d1, cond neg (-d2) d2) := by
  induction lig generalizing ps with
  | nil => cases hk
  | cons i rest ih =>
      unfold displLoop at h
      obtain ⟨d0, h0, h⟩ := exceptBind_ok h
      obtain ⟨d1, h1, h⟩ := exceptBind_ok h
      obtain ⟨d2, h2, h⟩ := exceptBind_ok h
      obtain ⟨ps1, hset, h⟩ := exceptBind_ok h
      obtain ⟨hge, hlt, rfl⟩ := setPP_ok hset
      by_cases hkr : (k : Int) ∈ rest
      · exact ih h hkr
      · have hik : i = (k : Int) := by
          rcases List.mem_cons.mp hk with he | hm
          · exact he.symm
          · exact absurd hm hkr
        refine ⟨d0, d1, d2, h0, h1, h2, ?_⟩
        rw [displLoop_get_notMem h hkr]
        have htn : i.toNat = k := by rw [hik]; exact Int.toNat_natCast k
        rw [htn] at hlt ⊢
        rw [List.get?_set_eq_of_lt _ hlt, hik]

theorem applyDispl_ok {f : ATMMetaForce} {lig : List Int} {displ : List Frac}
    {neg : Bool} {g : ATMMetaForce} (h : f.applyDispl lig displ neg = .ok g) :
    ∃ ps, displLoop f.particles lig displ neg = .ok ps ∧
      g = { f with particles := ps } := by
  unfold ATMMetaForce.applyDispl at h
  cases hd : displLoop f.particles lig displ neg with
  | ok ps =>
      rw [hd] at h
      simp only [Except.map] at h
      exact ⟨ps, rfl, ((Except.ok.injEq _ _).mp h).symm⟩
  | error e =>
      rw [hd] at h
      simp [Except.map] at h

/-- The initial particle list built by the `addParticle` loop. -/
theorem rangeParticles_length (n : Nat) :
    ((List.range n).map (fun (i : Nat) => ((i : Int), (0 : Frac), (0 : Frac), (0 : Frac)))).length
      = n := by
  rw [List.length_map, List.length_range]

theorem rangeParticles_get? {n k : Nat} (hk : k < n) :
    ((List.range n).map (fun (i : Nat) => ((i : Int), (0 : Frac), (0 : Frac), (0 : Frac)))).get? k
      = some ((k : Int), 0, 0, 0) := by
  rw [List.get?_map, List.get?_range hk]
  rfl

/-- Decomposition of a successful soft-core parameter block. -/
theorem readSoftCore_ok {kw : KWDict} {sc : Frac × Frac × Frac}
    (h : readSoftCore kw = .ok sc) :
    ∃ u a, pyFloat (KWDict.get kw "UMAX") = .ok u ∧
      readUbcore kw = .ok sc.2.1 ∧
      pyFloat (KWDict.get kw "ACORE") = .ok a ∧
      sc = (u * kilocalorie_per_mole, sc.2.1, a) := by
  unfold readSoftCore at h
  obtain ⟨u, h1, h⟩ := PyResult.bind_ok h
  obtain ⟨ub, h2, h⟩ := PyResult.bind_ok h
  obtain ⟨a, h3, h⟩ := PyResult.bind_ok h
  have hsc := (pyResult_pure_ok h).symm
  subst hsc
  exact ⟨u, a, liftE_ok h1, h2, liftE_ok h3, rfl⟩

/-- The `UBCORE` default: absent or falsy gives `0.0 * kilocalorie_per_mole`,
a truthy value is parsed and converted to kJ/mol. -/
theorem readUbcore_cases {kw : KWDict} {ub : Frac} (h : readUbcore kw = .ok ub) :
    ((KWDict.get kw "UBCORE" = none ∨ optTruthy (KWDict.get kw "UBCORE") = false) ∧
      ub = (0 : Frac) * kilocalorie_per_mole) ∨
    (∃ w v, KWDict.get kw "UBCORE" = some w ∧ w.truthy = true ∧
      pyFloat (some w) = .ok v ∧ ub = v * kilocalorie_per_mole) := by
  unfold readUbcore at h
  split at h
  next w heq =>
    split at h
    next ht =>
      obtain ⟨v, hv, h⟩ := PyResult.bind_ok h
      exact Or.inr ⟨w, v, heq, ht, liftE_ok hv, (pyResult_pure_ok h).symm⟩
    next ht =>
      have hw : w.truthy = false := by
        cases hw : w.truthy
        · rfl
        · exact absurd hw ht
      exact Or.inl ⟨Or.inr (by simp [optTruthy, heq, hw]), (pyResult_pure_ok h).symm⟩
  next heq =>
    exact Or.inl ⟨Or.inl heq, (pyResult_pure_ok h).symm⟩

/-! ## No code path reaches `sys.exit`

Because every `self._exit(msg)` call raises `TypeError` (the method lacks a
`self` parameter), no builder run can terminate through `sys.exit(1)`. -/

/-- The computation never terminates the process via `sys.exit`. -/
def neverExits {α : Type} (x : PyResult α) : Prop := ∀ m, x ≠ .exited m

theorem neverExits_ok {α : Type} (a : α) : neverExits (PyResult.ok a) := fun _ h =>
  PyResult.noConfusion h

theorem neverExits_pure {α : Type} (a : α) : neverExits (pure a : PyResult α) :=
  neverExits_ok a

theorem neverExits_exn {α : Type} (e : PyErr) : neverExits (PyResult.exn e : PyResult α) :=
  fun _ h => PyResult.noConfusion h

theorem neverExits_liftE {α : Type} (e : Except PyErr α) : neverExits (liftE e) := by
  cases e with
  | ok a => exact neverExits_ok a
  | error err => exact neverExits_exn err

theorem neverExits_selfExitCall {α : Type} (msg : String) :
    neverExits (selfExitCall msg : PyResult α) :=
  neverExits_exn _

theorem neverExits_bind {α β : Type} {x : PyResult α} {f : α → PyResult β}
    (hx : neverExits x) (hf : ∀ a, neverExits (f a)) : neverExits (x >>= f) := by
  intro m
  cases x with
  | ok a => exact hf a m
  | exited m' => exact absurd rfl (hx m')
  | exn e => exact fun h => PyResult.noConfusion h

theorem neverExits_ite {α : Type} {c : Prop} [Decidable c] {x y : PyResult α}
    (hx : neverExits x) (hy : neverExits y) : neverExits (if c then x else y) := by
  by_cases h : c
  · rw [if_pos h]; exact hx
  · rw [if_neg h]; exact hy

theorem neverExits_optMatch {α : Type} {v : Option KwVal}
    {f : KwVal → PyResult α} {z : PyResult α}
    (hf : ∀ w, neverExits (f w)) (hz : neverExits z) :
    neverExits (match v with | some w => f w | none => z) := by
  cases v with
  | some w => exact hf w
  | none => exact hz

theorem neverExits_readLigAtoms (kw : KWDict) (key msg : String) :
    neverExits (readLigAtoms kw key msg) := by
  unfold readLigAtoms
  exact neverExits_optMatch
    (fun w => neverExits_ite (neverExits_liftE _) (neverExits_selfExitCall _))
    (neverExits_selfExitCall _)

theorem neverExits_readRestrAtoms (v : Option KwVal) : neverExits (readRestrAtoms v) := by
  unfold readRestrAtoms
  exact neverExits_optMatch
    (fun w => neverExits_ite
      (neverExits_bind (neverExits_liftE _) (fun _ => neverExits_pure _))
      (neverExits_pure _))
    (neverExits_pure _)

theorem neverExits_readLigOffset (kw : KWDict) : neverExits (readLigOffset kw) := by
  unfold readLigOffset
  cases KWDict.get kw "LIGOFFSET" with
  | none => exact neverExits_pure _
  | some w =>
      exact neverExits_ite
        (neverExits_bind (neverExits_liftE _) (fun _ =>
          neverExits_bind (neverExits_liftE _) (fun _ => neverExits_pure _)))
        (neverExits_pure _)

theorem neverExits_ABFEaddCM (kw : KWDict) (ligR rcptR : Option (List Int)) (sys : MMSystem) :
    neverExits (ABFEaddCMRestraint kw ligR rcptR sys) := by
  unfold ABFEaddCMRestraint
  exact neverExits_ite
    (neverExits_bind (neverExits_liftE _) (fun _ =>
      neverExits_bind (neverExits_liftE _) (fun _ =>
        neverExits_bind (neverExits_readLigOffset kw) (fun _ => neverExits_pure _))))
    (neverExits_pure _)

theorem neverExits_RBFEaddCM (kw : KWDict) (l1 l2 rc : Option (List Int))
    (o1 o2 : List Frac) (sys : MMSystem) :
    neverExits (RBFEaddCMRestraints kw l1 l2 rc o1 o2 sys) := by
  unfold RBFEaddCMRestraints
  exact neverExits_ite
    (neverExits_bind (neverExits_liftE _) (fun _ =>
      neverExits_bind (neverExits_liftE _) (fun _ => neverExits_pure _)))
    (neverExits_pure _)

theorem neverExits_addPos (kw : KWDict) (pos : Positions) (sys : MMSystem) :
    neverExits (addPosRestraintsStage kw pos sys) := by
  unfold addPosRestraintsStage
  exact neverExits_optMatch
    (fun w => neverExits_ite
      (neverExits_bind (neverExits_liftE _) (fun _ =>
        neverExits_bind (neverExits_liftE _) (fun _ =>
          neverExits_bind (neverExits_liftE _) (fun _ => neverExits_pure _))))
      (neverExits_pure _))
    (neverExits_pure _)

theorem neverExits_readUbcore (kw : KWDict) : neverExits (readUbcore kw) := by
  unfold readUbcore
  exact neverExits_optMatch
    (fun w => neverExits_ite
      (neverExits_bind (neverExits_liftE _) (fun _ => neverExits_pure _))
      (neverExits_pure _))
    (neverExits_pure _)

theorem neverExits_readSoftCore (kw : KWDict) : neverExits (readSoftCore kw) := by
  unfold readSoftCore
  exact neverExits_bind (neverExits_liftE _) (fun _ =>
    neverExits_bind (neverExits_readUbcore kw) (fun _ =>
      neverExits_bind (neverExits_liftE _) (fun _ => neverExits_pure _)))

theorem neverExits_alignRefAtoms (kw : KWDict) (key : String) (lig : List Int) :
    neverExits (alignRefAtoms kw key lig) := by
  unfold alignRefAtoms
  exact neverExits_bind (neverExits_liftE _) (fun _ => neverExits_liftE _)

theorem neverExits_init (b : String) (kw : KWDict) : neverExits (OMMSystem.init b kw) := by
  unfold OMMSystem.init
  exact neverExits_bind (neverExits_liftE _) (fun _ =>
    neverExits_bind (neverExits_liftE _) (fun _ => neverExits_pure _))

theorem neverExits_ABFEreadDispl (kw : KWDict) : neverExits (ABFEreadDispl kw) := by
  unfold ABFEreadDispl
  exact neverExits_optMatch
    (fun w => neverExits_bind (neverExits_liftE _) (fun _ => neverExits_liftE _))
    (neverExits_selfExitCall _)

theorem neverExits_RBFEreadDispl (kw : KWDict) : neverExits (RBFEreadDispl kw) := by
  unfold RBFEreadDispl
  exact neverExits_optMatch
    (fun w => neverExits_ite
      (neverExits_bind (neverExits_liftE _) (fun _ => neverExits_liftE _))
      (neverExits_selfExitCall _))
    (neverExits_selfExitCall _)

theorem neverExits_TRE_create (st0 : OMMSystemState) (p : Prmtop) (i : Inpcrd) :
    neverExits (OMMSystemAmberTRE.create_system st0 p i) :=
  neverExits_ok _

theorem neverExits_ABFE_create (st0 : OMMSystemState) (p : Prmtop) (i : Inpcrd) :
    neverExits (OMMSystemAmberABFE.create_system st0 p i) := by
  unfold OMMSystemAmberABFE.create_system
  exact neverExits_bind (neverExits_readLigAtoms _ _ _) (fun _ =>
    neverExits_bind (neverExits_readRestrAtoms _) (fun _ =>
    neverExits_bind (neverExits_readRestrAtoms _) (fun _ =>
    neverExits_bind (neverExits_ABFEaddCM _ _ _ _) (fun _ =>
    neverExits_bind (neverExits_addPos _ _ _) (fun _ =>
    neverExits_bind (neverExits_readSoftCore _) (fun _ =>
    neverExits_bind (neverExits_ABFEreadDispl _) (fun _ =>
    neverExits_bind (neverExits_liftE _) (fun _ => neverExits_pure _))))))))

theorem neverExits_RBFE_create (st0 : OMMSystemState) (p : Prmtop) (i : Inpcrd) :
    neverExits (OMMSystemAmberRBFE.create_system st0 p i) := by
  unfold OMMSystemAmberRBFE.create_system
  exact neverExits_bind (neverExits_readLigAtoms _ _ _) (fun _ =>
    neverExits_bind (neverExits_readLigAtoms _ _ _) (fun _ =>
    neverExits_bind (neverExits_readRestrAtoms _) (fun _ =>
    neverExits_bind (neverExits_readRestrAtoms _) (fun _ =>
    neverExits_bind (neverExits_readRestrAtoms _) (fun _ =>
    neverExits_bind (neverExits_RBFEreadDispl _) (fun _ =>
    neverExits_bind (neverExits_RBFEaddCM _ _ _ _ _ _ _) (fun _ =>
    neverExits_bind (neverExits_alignRefAtoms _ _ _) (fun _ =>
    neverExits_bind (neverExits_alignRefAtoms _ _ _) (fun _ =>
    neverExits_bind (neverExits_liftE _) (fun _ =>
    neverExits_bind (neverExits_liftE _) (fun _ =>
    neverExits_bind (neverExits_liftE _) (fun _ =>
    neverExits_bind (neverExits_addPos _ _ _) (fun _ =>
    neverExits_bind (neverExits_readSoftCore _) (fun _ =>
    neverExits_bind (neverExits_liftE _) (fun _ =>
    neverExits_bind (neverExits_liftE _) (fun _ => neverExits_pure _))))))))))))))))

theorem neverExits_runTRE (b : String) (kw : KWDict) (p : Prmtop) (i : Inpcrd) :
    neverExits (runTRE b kw p i) := by
  unfold runTRE
  refine neverExits_bind (x := OMMSystemAmberTRE.init b kw "x.prmtop" "x.inpcrd") ?_ ?_
  · unfold OMMSystemAmberTRE.init
    exact neverExits_bind (neverExits_init _ _) (fun _ => neverExits_pure _)
  · exact fun st => neverExits_TRE_create st p i

theorem neverExits_runABFE (b : String) (kw : KWDict) (p : Prmtop) (i : Inpcrd) :
    neverExits (runABFE b kw p i) := by
  unfold runABFE
  refine neverExits_bind (x := OMMSystemAmberABFE.init b kw "x.prmtop" "x.inpcrd") ?_ ?_
  · unfold OMMSystemAmberABFE.init
    exact neverExits_bind (neverExits_init _ _) (fun _ => neverExits_pure _)
  · exact fun st => neverExits_ABFE_create st p i

theorem neverExits_runRBFE (b : String) (kw : KWDict) (p : Prmtop) (i : Inpcrd) :
    neverExits (runRBFE b kw p i) := by
  unfold runRBFE
  refine neverExits_bind (x := OMMSystemAmberRBFE.init b kw "x.prmtop" "x.inpcrd") ?_ ?_
  · unfold OMMSystemAmberRBFE.init
    exact neverExits_bind (neverExits_init _ _) (fun _ => neverExits_pure _)
  · exact fun st => neverExits_RBFE_create st p i

/-! ## Helpers for stating the claims -/

/-- Remove a key from a keyword dictionary. -/
def KWDict.erase (d : KWDict) (k : String) : KWDict :=
  d.filter (fun p => !(p.1 == k))

/-- A default state used only as the fallback of `PyResult.getOk`. -/
def emptyState : OMMSystemState :=
  { system := none, topology := none, positions := none, boxvectors := none
    integrator := none, keywords := [], basename := "", parameterDict := []
    cparams := [], frictionCoeff := 0, MDstepsize := 0
    displ := none, atmforce := none, prmtopfile := "", crdfile := "" }

/-- The `TypeError` raised by `float(None)`. -/
def floatNoneError : PyErr :=
  .typeError "float() argument must be a string or a number, not NoneType"

/-- The `TypeError` raised by every `self._exit(msg)` call. -/
def exitArityError : PyErr :=
  .typeError "_exit() takes 1 positional argument but 2 were given"

/-- The `TypeError` raised by iterating `None`. -/
def notIterableError : PyErr := .typeError "NoneType object is not iterable"

/-- The box-vectors attribute of a successful run, `none` on failure. -/
def resultBoxvectors : PyResult OMMSystemState → Option (Option BoxVectors)
  | .ok st => some st.boxvectors
  | _ => none

/-- Whether the system of a successful run carries a CM-CM restraint force. -/
def resultHasRestraint : PyResult OMMSystemState → Option Bool
  | .ok st => st.system.map MMSystem.hasRestraint
  | _ => none

theorem pyIndex_ok {α : Type} {xs : List α} {i : Nat} {x : α}
    (h : pyIndex xs i = .ok x) : xs.get? i = some x := by
  unfold pyIndex at h
  split at h
  next hg =>
    cases h
    exact hg
  next => exact absurd h (by simp)

/-! ## Stage preservation of force classes -/

theorem addPos_barostats {kw : KWDict} {pos : Positions} {sys sys' : MMSystem}
    (h : addPosRestraintsStage kw pos sys = .ok sys') : sys'.barostats = sys.barostats := by
  rcases addPos_ok_cases h with rfl | ⟨a, fc, tol, rfl⟩
  · rfl
  · rw [addForce_barostats]
    simp [Force.isBarostat]

theorem addPos_hasRestraint {kw : KWDict} {pos : Positions} {sys sys' : MMSystem}
    (h : addPosRestraintsStage kw pos sys = .ok sys') :
    sys'.hasRestraint = sys.hasRestraint := by
  rcases addPos_ok_cases h with rfl | ⟨a, fc, tol, rfl⟩
  · rfl
  · rw [addForce_hasRestraint]
    simp [Force.isRestraint]

theorem ABFEaddCM_barostats {kw : KWDict} {ligR rcptR : Option (List Int)}
    {sys sys' : MMSystem} (h : ABFEaddCMRestraint kw ligR rcptR sys = .ok sys') :
    sys'.barostats = sys.barostats := by
  rcases ABFEaddCM_ok_cases h with ⟨_, kf, tol, off, rfl⟩ | ⟨_, rfl⟩
  · rw [addForce_barostats]
    simp [Force.isBarostat]
  · rfl

theorem ABFEaddCM_hasRestraint {kw : KWDict} {ligR rcptR : Option (List Int)}
    {sys sys' : MMSystem} (h : ABFEaddCMRestraint kw ligR rcptR sys = .ok sys') :
    sys'.hasRestraint = (sys.hasRestraint ||
      ((KWDict.get kw "RCPT_CM_ATOMS").isSome && (KWDict.get kw "LIGAND_CM_ATOMS").isSome)) := by
  rcases ABFEaddCM_ok_cases h with ⟨hc, kf, tol, off, rfl⟩ | ⟨hc, rfl⟩
  · rw [addForce_hasRestraint, hc]
    simp [Force.isRestraint]
  · rw [hc]
    simp

theorem RBFEaddCM_barostats {kw : KWDict} {l1 l2 rc : Option (List Int)}
    {o1 o2 : List Frac} {sys sys' : MMSystem}
    (h : RBFEaddCMRestraints kw l1 l2 rc o1 o2 sys = .ok sys') :
    sys'.barostats = sys.barostats := by
  rcases RBFEaddCM_ok_cases h with ⟨_, kf, tol, rfl⟩ | ⟨_, rfl⟩
  · rw [addForce_barostats, addForce_barostats]
    simp [Force.isBarostat]
  · rfl

theorem RBFEaddCM_hasRestraint {kw : KWDict} {l1 l2 rc : Option (List Int)}
    {o1 o2 : List Frac} {sys sys' : MMSystem}
    (h : RBFEaddCMRestraints kw l1 l2 rc o1 o2 sys = .ok sys') :
    sys'.hasRestraint = (sys.hasRestraint || (rc.isSome && l1.isSome && l2.isSome)) := by
  rcases RBFEaddCM_ok_cases h with ⟨hc, kf, tol, rfl⟩ | ⟨hc, rfl⟩
  · rw [addForce_hasRestraint, addForce_hasRestraint, hc]
    simp [Force.isRestraint]
  · rw [hc]
    simp

/-! ## The claims -/

/-- C1: the presence checks for `LIGAND_ATOMS` / `DISPLACEMENT` (ABFE) and
`LIGAND1_ATOMS` / `LIGAND2_ATOMS` / `DISPLACEMENT` (RBFE) call
`self._exit(msg)`, but because `_exit` is declared without a `self`
parameter the call raises `TypeError` before printing anything, instead of
terminating the process with the message: running each builder with the
keyword removed from an otherwise complete dictionary yields the
`TypeError`, while the `_exit` function as defined (and documented) would
have printed the message and exited. -/
theorem C1_required_checks_raise_instead_of_exit :
    runABFE "t" (kwABFE.erase "LIGAND_ATOMS") egPrmtop egInpcrd = .exn exitArityError ∧
    runABFE "t" (kwABFE.erase "DISPLACEMENT") egPrmtop egInpcrd = .exn exitArityError ∧
    runRBFE "t" (kwRBFE.erase "LIGAND1_ATOMS") egPrmtop egInpcrdNoBox = .exn exitArityError ∧
    runRBFE "t" (kwRBFE.erase "LIGAND2_ATOMS") egPrmtop egInpcrdNoBox = .exn exitArityError ∧
    runRBFE "t" (kwRBFE.erase "DISPLACEMENT") egPrmtop egInpcrdNoBox = .exn exitArityError ∧
    (∀ m : String, (OMMSystem._exit m : PyResult OMMSystemState) = .exited m) :=
  ⟨rfl, rfl, rfl, rfl, rfl, fun _ => rfl⟩

/-- C3 counterexample: running a builder with `FRICTION_COEFF` absent (all
other keywords present) raises an uncaught `TypeError` from `float(None)`;
it does not exit the process with a printed message. -/
theorem C3_counterexample_no_exit :
    runABFE "t" (kwABFE.erase "FRICTION_COEFF") egPrmtop egInpcrd = .exn floatNoneError ∧
    (∀ m, runABFE "t" (kwABFE.erase "FRICTION_COEFF") egPrmtop egInpcrd ≠ .exited m) :=
  ⟨rfl, neverExits_runABFE "t" (kwABFE.erase "FRICTION_COEFF") egPrmtop egInpcrd⟩

/-- C3 amended: the keywords read without a presence check
(`FRICTION_COEFF`, `TIME_STEP`, `UMAX`, `ACORE`, the RBFE
`ALIGN_LIGAND*_REF_ATOMS`, and similarly the `ALIGN_K*` constants) make the
builder raise an uncaught `TypeError` when absent, not exit with a printed
message; indeed no builder run exits the process for any input, because
every `self._exit` call raises `TypeError`. -/
theorem C3_unchecked_keywords_raise :
    (∀ (b : String) (kw : KWDict), KWDict.get kw "FRICTION_COEFF" = none →
       OMMSystem.init b kw = .exn floatNoneError) ∧
    (∀ (b : String) (kw : KWDict) (fc : Frac),
       pyFloat (KWDict.get kw "FRICTION_COEFF") = .ok fc →
       KWDict.get kw "TIME_STEP" = none →
       OMMSystem.init b kw = .exn floatNoneError) ∧
    (∀ kw : KWDict, KWDict.get kw "UMAX" = none →
       readSoftCore kw = .exn floatNoneError) ∧
    (∀ (kw : KWDict) (u ub : Frac), pyFloat (KWDict.get kw "UMAX") = .ok u →
       readUbcore kw = .ok ub → KWDict.get kw "ACORE" = none →
       readSoftCore kw = .exn floatNoneError) ∧
    (∀ (kw : KWDict) (key : String) (lig : List Int), KWDict.get kw key = none →
       alignRefAtoms kw key lig = .exn notIterableError) ∧
    (∀ (kw : KWDict) (key : String), KWDict.get kw key = none →
       pyFloat (KWDict.get kw key) = .error floatNoneError) ∧
    (∀ (b : String) (kw : KWDict) (p : Prmtop) (i : Inpcrd) (m : String),
       runTRE b kw p i ≠ .exited m ∧ runABFE b kw p i ≠ .exited m ∧
       runRBFE b kw p i ≠ .exited m) := by
  refine ⟨?_, ?_, ?_, ?_, ?_, ?_, ?_⟩
  · intro b kw h
    unfold OMMSystem.init
    rw [h]
    rfl
  · intro b kw fc hfc hts
    unfold OMMSystem.init
    rw [hfc, hts]
    rfl
  · intro kw h
    unfold readSoftCore
    rw [h]
    rfl
  · intro kw u ub hu hub hac
    unfold readSoftCore
    rw [hu, hub, hac]
    rfl
  · intro kw key lig h
    unfold alignRefAtoms
    rw [h]
    rfl
  · intro kw key h
    rw [h]
    rfl
  · intro b kw p i m
    exact ⟨neverExits_runTRE b kw p i m, neverExits_runABFE b kw p i m,
      neverExits_runRBFE b kw p i m⟩

/-- C3 witness: concrete instances of the amended statement. -/
theorem C3_unchecked_keywords_raise_witness :
    OMMSystem.init "t" [("TIME_STEP", KwVal.str "0.002")] = .exn floatNoneError ∧
    OMMSystem.init "t" [("FRICTION_COEFF", KwVal.str "1")] = .exn floatNoneError ∧
    readSoftCore [] = .exn floatNoneError ∧
    readSoftCore [("UMAX", KwVal.str "200")] = .exn floatNoneError ∧
    alignRefAtoms [] "ALIGN_LIGAND1_REF_ATOMS" [0] = .exn notIterableError ∧
    runABFE "t" kwABFE egPrmtop egInpcrd ≠ .exited "Error: LIGAND_ATOMS is required" :=
  ⟨C3_unchecked_keywords_raise.1 "t" [("TIME_STEP", KwVal.str "0.002")] rfl,
   C3_unchecked_keywords_raise.2.1 "t" [("FRICTION_COEFF", KwVal.str "1")] 1 rfl rfl,
   C3_unchecked_keywords_raise.2.2.1 [] rfl,
   C3_unchecked_keywords_raise.2.2.2.1 [("UMAX", KwVal.str "200")] 200
     ((0 : Frac) * kilocalorie_per_mole) rfl rfl rfl,
   C3_unchecked_keywords_raise.2.2.2.2.1 [] "ALIGN_LIGAND1_REF_ATOMS" [0] rfl,
   (C3_unchecked_keywords_raise.2.2.2.2.2.2 "t" kwABFE egPrmtop egInpcrd
     "Error: LIGAND_ATOMS is required").2.1⟩

/-- C2 counterexample: a TRE run that returns normally (the projection is
`some _`) with a coordinate file that does have box vectors, yet the
builder's `boxvectors` attribute is still `None`: `create_system` of the
TRE builder never assigns it. -/
theorem C2_counterexample_tre_boxvectors :
    resultBoxvectors (runTRE "t" kwBase egPrmtop egInpcrd) = some none ∧
    egInpcrd.boxVectors.isSome = true :=
  ⟨rfl, rfl⟩

/-- C2 amended: for every builder run (`__init__` then `create_system`)
that returns normally, `topology`, `positions` and `integrator` are set to
non-`None` values; `boxvectors` however is assigned only by the ABFE
builder (to the coordinate file's `boxVectors`, which may itself be
`None`), while the TRE and RBFE builders leave it `None`. -/
theorem C2_created_system_fields :
    (∀ (b : String) (kw : KWDict) (pf cf : String) (p : Prmtop) (i : Inpcrd)
       (st0 st : OMMSystemState),
       OMMSystemAmberTRE.init b kw pf cf = .ok st0 →
       OMMSystemAmberTRE.create_system st0 p i = .ok st →
       st.topology = some p.topology ∧ st.positions = some i.positions ∧
       st.integrator.isSome = true ∧ st.boxvectors = none) ∧
    (∀ (b : String) (kw : KWDict) (pf cf : String) (p : Prmtop) (i : Inpcrd)
       (st0 st : OMMSystemState),
       OMMSystemAmberABFE.init b kw pf cf = .ok st0 →
       OMMSystemAmberABFE.create_system st0 p i = .ok st →
       st.topology = some p.topology ∧ st.positions = some i.positions ∧
       st.integrator.isSome = true ∧ st.boxvectors = i.boxVectors) ∧
    (∀ (b : String) (kw : KWDict) (pf cf : String) (p : Prmtop) (i : Inpcrd)
       (st0 st : OMMSystemState),
       OMMSystemAmberRBFE.init b kw pf cf = .ok st0 →
       OMMSystemAmberRBFE.create_system st0 p i = .ok st →
       st.topology = some p.topology ∧ st.positions = some i.positions ∧
       st.integrator.isSome = true ∧ st.boxvectors = none) := by
  refine ⟨?_, ?_, ?_⟩
  · intro b kw pf cf p i st0 st hinit hcr
    obtain ⟨_, hbox, -⟩ := init_fields (Or.inl hinit)
    have hst := TRE_create_ok hcr
    subst hst
    exact ⟨rfl, rfl, rfl, hbox⟩
  · intro b kw pf cf p i st0 st hinit hcr
    obtain ⟨lig, ligR, rcptR, sys1, sys2, sc, displ, atmf1,
      _, _, _, _, _, _, _, _, hst⟩ := ABFE_create_ok hcr
    subst hst
    exact ⟨rfl, rfl, rfl, rfl⟩
  · intro b kw pf cf p i st0 st hinit hcr
    obtain ⟨_, hbox, -⟩ := init_fields (Or.inr (Or.inr hinit))
    obtain ⟨lig1, lig2, lig1R, lig2R, rcptR, displ, sys1, ref1, ref2,
      kfdispl, ktheta, kpsi, sys2, sc, atmf1, atmf2,
      _, _, _, _, _, _, _, _, _, _, _, _, _, _, _, _, hst⟩ := RBFE_create_ok hcr
    subst hst
    exact ⟨rfl, rfl, rfl, hbox⟩

/-- The states of a concrete successful TRE run. -/
def treSt0 : OMMSystemState :=
  (OMMSystemAmberTRE.init "t" kwBase "x.prmtop" "x.inpcrd").getOk emptyState

def treSt1 : OMMSystemState :=
  (OMMSystemAmberTRE.create_system treSt0 egPrmtop egInpcrd).getOk emptyState

/-- The states of a concrete successful ABFE run. -/
def abfeSt0 : OMMSystemState :=
  (OMMSystemAmberABFE.init "t" kwABFE "x.prmtop" "x.inpcrd").getOk emptyState

def abfeSt1 : OMMSystemState :=
  (OMMSystemAmberABFE.create_system abfeSt0 egPrmtop egInpcrd).getOk emptyState

/-- The states of a concrete successful RBFE run. -/
def rbfeSt0 : OMMSystemState :=
  (OMMSystemAmberRBFE.init "t" kwRBFE "x.prmtop" "x.inpcrd").getOk emptyState

def rbfeSt1 : OMMSystemState :=
  (OMMSystemAmberRBFE.create_system rbfeSt0 egPrmtop egInpcrdNoBox).getOk emptyState

/-- C2 witness: the amended statement applied to concrete successful runs of
all three builders. -/
theorem C2_created_system_fields_witness :
    (treSt1.topology = some egPrmtop.topology ∧ treSt1.positions = some egInpcrd.positions ∧
      treSt1.integrator.isSome = true ∧ treSt1.boxvectors = none) ∧
    (abfeSt1.topology = some egPrmtop.topology ∧ abfeSt1.positions = some egInpcrd.positions ∧
      abfeSt1.integrator.isSome = true ∧ abfeSt1.boxvectors = egInpcrd.boxVectors) ∧
    (rbfeSt1.topology = some egPrmtop.topology ∧
      rbfeSt1.positions = some egInpcrdNoBox.positions ∧
      rbfeSt1.integrator.isSome = true ∧ rbfeSt1.boxvectors = none) :=
  ⟨C2_created_system_fields.1 "t" kwBase "x.prmtop" "x.inpcrd" egPrmtop egInpcrd
      treSt0 treSt1 rfl rfl,
   C2_created_system_fields.2.1 "t" kwABFE "x.prmtop" "x.inpcrd" egPrmtop egInpcrd
      abfeSt0 abfeSt1 rfl rfl,
   C2_created_system_fields.2.2 "t" kwRBFE "x.prmtop" "x.inpcrd" egPrmtop egInpcrdNoBox
      rbfeSt0 rbfeSt1 rfl rfl⟩

/-- C6: every builder's `create_system` installs a Langevin integrator with
temperature 300 (kelvin), friction equal to the parsed `FRICTION_COEFF`
keyword (per picosecond) and step size equal to the parsed `TIME_STEP`
keyword (picoseconds). -/
theorem C6_langevin_integrator :
    (∀ (b : String) (kw : KWDict) (pf cf : String) (p : Prmtop) (i : Inpcrd)
       (st0 st : OMMSystemState),
       OMMSystemAmberTRE.init b kw pf cf = .ok st0 →
       OMMSystemAmberTRE.create_system st0 p i = .ok st →
       ∃ fc ts g, pyFloat (KWDict.get kw "FRICTION_COEFF") = .ok fc ∧
         pyFloat (KWDict.get kw "TIME_STEP") = .ok ts ∧
         st.integrator = some { temperature := 300, friction := fc, stepsize := ts
                                integrationForceGroups := g }) ∧
    (∀ (b : String) (kw : KWDict) (pf cf : String) (p : Prmtop) (i : Inpcrd)
       (st0 st : OMMSystemState),
       OMMSystemAmberABFE.init b kw pf cf = .ok st0 →
       OMMSystemAmberABFE.create_system st0 p i = .ok st →
       ∃ fc ts g, pyFloat (KWDict.get kw "FRICTION_COEFF") = .ok fc ∧
         pyFloat (KWDict.get kw "TIME_STEP") = .ok ts ∧
         st.integrator = some { temperature := 300, friction := fc, stepsize := ts
                                integrationForceGroups := g }) ∧
    (∀ (b : String) (kw : KWDict) (pf cf : String) (p : Prmtop) (i : Inpcrd)
       (st0 st : OMMSystemState),
       OMMSystemAmberRBFE.init b kw pf cf = .ok st0 →
       OMMSystemAmberRBFE.create_system st0 p i = .ok st →
       ∃ fc ts g, pyFloat (KWDict.get kw "FRICTION_COEFF") = .ok fc ∧
         pyFloat (KWDict.get kw "TIME_STEP") = .ok ts ∧
         st.integrator = some { temperature := 300, friction := fc, stepsize := ts
                                integrationForceGroups := g }) := by
  refine ⟨?_, ?_, ?_⟩
  · intro b kw pf cf p i st0 st hinit hcr
    obtain ⟨-, -, -, hfc, hts⟩ := init_fields (Or.inl hinit)
    have hst := TRE_create_ok hcr
    subst hst
    exact ⟨st0.frictionCoeff, st0.MDstepsize, none, hfc, hts, rfl⟩
  · intro b kw pf cf p i st0 st hinit hcr
    obtain ⟨-, -, -, hfc, hts⟩ := init_fields (Or.inr (Or.inl hinit))
    obtain ⟨lig, ligR, rcptR, sys1, sys2, sc, displ, atmf1,
      -, -, -, -, -, -, -, -, hst⟩ := ABFE_create_ok hcr
    subst hst
    exact ⟨st0.frictionCoeff, st0.MDstepsize, some [1, 3], hfc, hts, rfl⟩
  · intro b kw pf cf p i st0 st hinit hcr
    obtain ⟨-, -, -, hfc, hts⟩ := init_fields (Or.inr (Or.inr hinit))
    obtain ⟨lig1, lig2, lig1R, lig2R, rcptR, displ, sys1, ref1, ref2,
      kfdispl, ktheta, kpsi, sys2, sc, atmf1, atmf2,
      -, -, -, -, -, -, -, -, -, -, -, -, -, -, -, -, hst⟩ := RBFE_create_ok hcr
    subst hst
    exact ⟨st0.frictionCoeff, st0.MDstepsize, some [1, 3], hfc, hts, rfl⟩

/-- C6 witness: the integrators of the three concrete runs. -/
theorem C6_langevin_integrator_witness :
    (∃ fc ts g, pyFloat (KWDict.get kwBase "FRICTION_COEFF") = .ok fc ∧
      pyFloat (KWDict.get kwBase "TIME_STEP") = .ok ts ∧
      treSt1.integrator = some { temperature := 300, friction := fc, stepsize := ts
                                 integrationForceGroups := g }) ∧
    (∃ fc ts g, pyFloat (KWDict.get kwABFE "FRICTION_COEFF") = .ok fc ∧
      pyFloat (KWDict.get kwABFE "TIME_STEP") = .ok ts ∧
      abfeSt1.integrator = some { temperature := 300, friction := fc, stepsize := ts
                                  integrationForceGroups := g }) ∧
    (∃ fc ts g, pyFloat (KWDict.get kwRBFE "FRICTION_COEFF") = .ok fc ∧
      pyFloat (KWDict.get kwRBFE "TIME_STEP") = .ok ts ∧
      rbfeSt1.integrator = some { temperature := 300, friction := fc, stepsize := ts
                                  integrationForceGroups := g }) :=
  ⟨C6_langevin_integrator.1 "t" kwBase "x.prmtop" "x.inpcrd" egPrmtop egInpcrd
      treSt0 treSt1 rfl rfl,
   C6_langevin_integrator.2.1 "t" kwABFE "x.prmtop" "x.inpcrd" egPrmtop egInpcrd
      abfeSt0 abfeSt1 rfl rfl,
   C6_langevin_integrator.2.2 "t" kwRBFE "x.prmtop" "x.inpcrd" egPrmtop egInpcrdNoBox
      rbfeSt0 rbfeSt1 rfl rfl⟩

/-- C8: the ABFE and RBFE builders restrict the integrator to force groups 1
and 3 via `setIntegrationForceGroups({1,3})`, while the TRE builder leaves
the integrator at the OpenMM default of integrating all force groups
(modelled by `integrationForceGroups = none`). -/
theorem C8_integration_force_groups :
    (∀ (st0 st : OMMSystemState) (p : Prmtop) (i : Inpcrd),
       OMMSystemAmberABFE.create_system st0 p i = .ok st →
       ∃ intg, st.integrator = some intg ∧ intg.integrationForceGroups = some [1, 3]) ∧
    (∀ (st0 st : OMMSystemState) (p : Prmtop) (i : Inpcrd),
       OMMSystemAmberRBFE.create_system st0 p i = .ok st →
       ∃ intg, st.integrator = some intg ∧ intg.integrationForceGroups = some [1, 3]) ∧
    (∀ (st0 st : OMMSystemState) (p : Prmtop) (i : Inpcrd),
       OMMSystemAmberTRE.create_system st0 p i = .ok st →
       ∃ intg, st.integrator = some intg ∧ intg.integrationForceGroups = none) := by
  refine ⟨?_, ?_, ?_⟩
  · intro st0 st p i hcr
    obtain ⟨lig, ligR, rcptR, sys1, sys2, sc, displ, atmf1,
      -, -, -, -, -, -, -, -, hst⟩ := ABFE_create_ok hcr
    subst hst
    exact ⟨_, rfl, rfl⟩
  · intro st0 st p i hcr
    obtain ⟨lig1, lig2, lig1R, lig2R, rcptR, displ, sys1, ref1, ref2,
      kfdispl, ktheta, kpsi, sys2, sc, atmf1, atmf2,
      -, -, -, -, -, -, -, -, -, -, -, -, -, -, -, -, hst⟩ := RBFE_create_ok hcr
    subst hst
    exact ⟨_, rfl, rfl⟩
  · intro st0 st p i hcr
    have hst := TRE_create_ok hcr
    subst hst
    exact ⟨_, rfl, rfl⟩

/-- C8 witness: the force groups of the three concrete runs. -/
theorem C8_integration_force_groups_witness :
    (∃ intg, abfeSt1.integrator = some intg ∧ intg.integrationForceGroups = some [1, 3]) ∧
    (∃ intg, rbfeSt1.integrator = some intg ∧ intg.integrationForceGroups = some [1, 3]) ∧
    (∃ intg, treSt1.integrator = some intg ∧ intg.integrationForceGroups = none) :=
  ⟨C8_integration_force_groups.1 abfeSt0 abfeSt1 egPrmtop egInpcrd rfl,
   C8_integration_force_groups.2.1 rbfeSt0 rbfeSt1 egPrmtop egInpcrdNoBox rfl,
   C8_integration_force_groups.2.2 treSt0 treSt1 egPrmtop egInpcrd rfl⟩

/-- C10: every builder's `create_system` attaches exactly one Monte Carlo
barostat, with reference pressure 1 (bar), temperature 300 (kelvin), force
group 1 and update frequency 0, i.e. present but disabled. -/
theorem C10_single_disabled_barostat :
    (∀ (st0 st : OMMSystemState) (p : Prmtop) (i : Inpcrd) (sys : MMSystem),
       OMMSystemAmberTRE.create_system st0 p i = .ok st → st.system = some sys →
       sys.barostats = [Force.monteCarloBarostat 1 300 1 0]) ∧
    (∀ (st0 st : OMMSystemState) (p : Prmtop) (i : Inpcrd) (sys : MMSystem),
       OMMSystemAmberABFE.create_system st0 p i = .ok st → st.system = some sys →
       sys.barostats = [Force.monteCarloBarostat 1 300 1 0]) ∧
    (∀ (st0 st : OMMSystemState) (p : Prmtop) (i : Inpcrd) (sys : MMSystem),
       OMMSystemAmberRBFE.create_system st0 p i = .ok st → st.system = some sys →
       sys.barostats = [Force.monteCarloBarostat 1 300 1 0]) := by
  refine ⟨?_, ?_, ?_⟩
  · intro st0 st p i sys hcr hsys
    have hst := TRE_create_ok hcr
    subst hst
    have hs := (Option.some.injEq _ _).mp hsys
    subst hs
    rw [addForce_barostats, addForce_barostats, createSystem_barostats]
    simp [Force.isBarostat, sforceOf]
  · intro st0 st p i sys hcr hsys
    obtain ⟨lig, ligR, rcptR, sys1, sys2, sc, displ, atmf1,
      -, -, -, hcm, hpos, -, -, -, hst⟩ := ABFE_create_ok hcr
    subst hst
    have hs := (Option.some.injEq _ _).mp hsys
    subst hs
    rw [addForce_barostats, addForce_barostats, addForce_barostats,
      addPos_barostats hpos, ABFEaddCM_barostats hcm, createSystem_barostats]
    simp [Force.isBarostat, sforceOf]
  · intro st0 st p i sys hcr hsys
    obtain ⟨lig1, lig2, lig1R, lig2R, rcptR, displ, sys1, ref1, ref2,
      kfdispl, ktheta, kpsi, sys2, sc, atmf1, atmf2,
      -, -, -, -, -, -, hcm, -, -, -, -, -, hpos, -, -, -, hst⟩ := RBFE_create_ok hcr
    subst hst
    have hs := (Option.some.injEq _ _).mp hsys
    subst hs
    rw [addForce_barostats, addForce_barostats, addForce_barostats,
      addPos_barostats hpos, addForce_barostats, RBFEaddCM_barostats hcm,
      createSystem_barostats]
    simp [Force.isBarostat, sforceOf]

/-- C10 witness: the barostat lists of the three concrete runs. -/
theorem C10_single_disabled_barostat_witness :
    (∃ sys, treSt1.system = some sys ∧
      sys.barostats = [Force.monteCarloBarostat 1 300 1 0]) ∧
    (∃ sys, abfeSt1.system = some sys ∧
      sys.barostats = [Force.monteCarloBarostat 1 300 1 0]) ∧
    (∃ sys, rbfeSt1.system = some sys ∧
      sys.barostats = [Force.monteCarloBarostat 1 300 1 0]) :=
  ⟨⟨(treSt1.system).getD ⟨[]⟩, rfl,
     C10_single_disabled_barostat.1 treSt0 treSt1 egPrmtop egInpcrd _ rfl rfl⟩,
   ⟨(abfeSt1.system).getD ⟨[]⟩, rfl,
     C10_single_disabled_barostat.2.1 abfeSt0 abfeSt1 egPrmtop egInpcrd _ rfl rfl⟩,
   ⟨(rbfeSt1.system).getD ⟨[]⟩, rfl,
     C10_single_disabled_barostat.2.2 rbfeSt0 rbfeSt1 egPrmtop egInpcrdNoBox _ rfl rfl⟩⟩

/-- RBFE keywords with all three CM-restraint keywords supplied, one of them
with an empty value. -/
def kwRBFEcmEmpty : KWDict := kwRBFE ++
  [("REST_LIGAND1_CMLIG_ATOMS", KwVal.list []),
   ("REST_LIGAND2_CMLIG_ATOMS", KwVal.list ["0"]),
   ("REST_LIGAND_CMREC_ATOMS", KwVal.list ["2", "3"]),
   ("CM_KF", KwVal.str "25.0"),
   ("CM_TOL", KwVal.str "5.0")]

/-- C4 counterexample: an RBFE run in which every restraint-atom keyword is
supplied (present in the dictionary), the run returns normally, and yet no
CM-CM restraint force is attached — the RBFE presence flag tests the parsed
variables, so a supplied-but-empty `REST_LIGAND1_CMLIG_ATOMS` disables the
restraint.  This refutes the claimed "added if and only if every one of the
restraint-atom keywords is supplied". -/
theorem C4_counterexample_supplied_but_empty :
    (KWDict.get kwRBFEcmEmpty "REST_LIGAND1_CMLIG_ATOMS").isSome = true ∧
    (KWDict.get kwRBFEcmEmpty "REST_LIGAND2_CMLIG_ATOMS").isSome = true ∧
    (KWDict.get kwRBFEcmEmpty "REST_LIGAND_CMREC_ATOMS").isSome = true ∧
    resultHasRestraint (runRBFE "t" kwRBFEcmEmpty egPrmtop egInpcrdNoBox) = some false :=
  ⟨rfl, rfl, rfl, rfl⟩

/-- C4 amended: in the ABFE builder the CM-CM restraint force is attached iff
both `LIGAND_CM_ATOMS` and `RCPT_CM_ATOMS` are present in the dictionary
(even with empty values); in the RBFE builder it is attached iff all three
`REST_*` keywords are present with truthy (non-empty) values.  (Besides
these and the `POS_RESTRAINED_ATOMS` check, `create_system` also branches on
the required-keyword checks, on `UBCORE`, and — in ABFE — on `LIGOFFSET`.) -/
theorem C4_cm_restraint_iff :
    (∀ (st0 st : OMMSystemState) (p : Prmtop) (i : Inpcrd) (sys : MMSystem),
       OMMSystemAmberABFE.create_system st0 p i = .ok st → st.system = some sys →
       sys.hasRestraint = ((KWDict.get st0.keywords "LIGAND_CM_ATOMS").isSome &&
         (KWDict.get st0.keywords "RCPT_CM_ATOMS").isSome)) ∧
    (∀ (st0 st : OMMSystemState) (p : Prmtop) (i : Inpcrd) (sys : MMSystem),
       OMMSystemAmberRBFE.create_system st0 p i = .ok st → st.system = some sys →
       sys.hasRestraint = (optTruthy (KWDict.get st0.keywords "REST_LIGAND1_CMLIG_ATOMS") &&
         optTruthy (KWDict.get st0.keywords "REST_LIGAND2_CMLIG_ATOMS") &&
         optTruthy (KWDict.get st0.keywords "REST_LIGAND_CMREC_ATOMS"))) := by
  constructor
  · intro st0 st p i sys hcr hsys
    obtain ⟨lig, ligR, rcptR, sys1, sys2, sc, displ, atmf1,
      -, -, -, hcm, hpos, -, -, -, hst⟩ := ABFE_create_ok hcr
    subst hst
    have hs := (Option.some.injEq _ _).mp hsys
    subst hs
    rw [addForce_hasRestraint, addForce_hasRestraint, addForce_hasRestraint,
      addPos_hasRestraint hpos, ABFEaddCM_hasRestraint hcm, createSystem_hasRestraint]
    simp [Force.isRestraint, sforceOf, Bool.and_comm]
  · intro st0 st p i sys hcr hsys
    obtain ⟨lig1, lig2, lig1R, lig2R, rcptR, displ, sys1, ref1, ref2,
      kfdispl, ktheta, kpsi, sys2, sc, atmf1, atmf2,
      -, -, h1R, h2R, hrR, -, hcm, -, -, -, -, -, hpos, -, -, -, hst⟩ := RBFE_create_ok hcr
    subst hst
    have hs := (Option.some.injEq _ _).mp hsys
    subst hs
    rw [addForce_hasRestraint, addForce_hasRestraint, addForce_hasRestraint,
      addPos_hasRestraint hpos, addForce_hasRestraint, RBFEaddCM_hasRestraint hcm,
      createSystem_hasRestraint, readRestrAtoms_isSome h1R, readRestrAtoms_isSome h2R,
      readRestrAtoms_isSome hrR]
    cases optTruthy (KWDict.get st0.keywords "REST_LIGAND1_CMLIG_ATOMS") <;>
      cases optTruthy (KWDict.get st0.keywords "REST_LIGAND2_CMLIG_ATOMS") <;>
      cases optTruthy (KWDict.get st0.keywords "REST_LIGAND_CMREC_ATOMS") <;>
      simp [Force.isRestraint, sforceOf]

/-- RBFE keywords with all three CM-restraint keywords supplied non-empty. -/
def kwRBFEcm : KWDict := kwRBFE ++
  [("REST_LIGAND1_CMLIG_ATOMS", KwVal.list ["0"]),
   ("REST_LIGAND2_CMLIG_ATOMS", KwVal.list ["2"]),
   ("REST_LIGAND_CMREC_ATOMS", KwVal.list ["3"]),
   ("CM_KF", KwVal.str "25.0"),
   ("CM_TOL", KwVal.str "5.0")]

def rbfeCmSt0 : OMMSystemState :=
  (OMMSystemAmberRBFE.init "t" kwRBFEcm "x.prmtop" "x.inpcrd").getOk emptyState

def rbfeCmSt1 : OMMSystemState :=
  (OMMSystemAmberRBFE.create_system rbfeCmSt0 egPrmtop egInpcrdNoBox).getOk emptyState

/-- C4 witness: the amended statement applied to concrete runs with and
without the restraint keywords. -/
theorem C4_cm_restraint_iff_witness :
    abfeSt1.system.map MMSystem.hasRestraint =
      some ((KWDict.get kwABFE "LIGAND_CM_ATOMS").isSome &&
        (KWDict.get kwABFE "RCPT_CM_ATOMS").isSome) ∧
    rbfeCmSt1.system.map MMSystem.hasRestraint =
      some (optTruthy (KWDict.get kwRBFEcm "REST_LIGAND1_CMLIG_ATOMS") &&
        optTruthy (KWDict.get kwRBFEcm "REST_LIGAND2_CMLIG_ATOMS") &&
        optTruthy (KWDict.get kwRBFEcm "REST_LIGAND_CMREC_ATOMS")) := by
  constructor
  · have h := C4_cm_restraint_iff.1 abfeSt0 abfeSt1 egPrmtop egInpcrd
      ((abfeSt1.system).getD ⟨[]⟩) rfl rfl
    exact congrArg some (h.trans rfl)
  · have h := C4_cm_restraint_iff.2 rbfeCmSt0 rbfeCmSt1 egPrmtop egInpcrdNoBox
      ((rbfeCmSt1.system).getD ⟨[]⟩) rfl rfl
    exact congrArg some (h.trans rfl)

/-- Common part of the `UBCORE` claim for both ATM builders: given the
soft-core read and the final control-parameter dictionary, absence (or a
falsy value) of `UBCORE` yields a zero ubcore, and a supplied truthy value
yields its parsed value converted to kJ/mol. -/
theorem ubcore_conclusion {kw : KWDict} {sc : Frac × Frac × Frac} {f : ATMMetaForce}
    (hsc : readSoftCore kw = .ok sc) (hub : f.ubcore = sc.2.1)
    (cp : List (String × Frac))
    (hcp : cp = setParam (setParam (setParam []
      "ATMUmax" sc.1) "ATMUbcore" sc.2.1) "ATMAcore" sc.2.2) :
    ((KWDict.get kw "UBCORE" = none ∨ optTruthy (KWDict.get kw "UBCORE") = false) →
       f.ubcore.eqv 0 ∧ ∃ c, lookupParam cp "ATMUbcore" = some c ∧ c.eqv 0) ∧
    (∀ w v, KWDict.get kw "UBCORE" = some w → w.truthy = true →
       pyFloat (some w) = .ok v →
       f.ubcore = v * kilocalorie_per_mole ∧
       lookupParam cp "ATMUbcore" = some (v * kilocalorie_per_mole)) := by
  obtain ⟨u, a, -, hu, -, -⟩ := readSoftCore_ok hsc
  have hlook : lookupParam cp "ATMUbcore" = some sc.2.1 := by rw [hcp]; rfl
  rcases readUbcore_cases hu with ⟨hcase, h0⟩ | ⟨w, v, hw, ht, hv, hval⟩
  · constructor
    · intro _
      refine ⟨?_, sc.2.1, hlook, ?_⟩
      · rw [hub, h0]; decide
      · rw [h0]; decide
    · intro w v hw ht hv
      exfalso
      rcases hcase with hnone | hfal
      · rw [hw] at hnone; exact Option.noConfusion hnone
      · rw [hw] at hfal; simp [optTruthy, ht] at hfal
  · constructor
    · intro hcase
      exfalso
      rcases hcase with hnone | hfal
      · rw [hw] at hnone; exact Option.noConfusion hnone
      · rw [hw] at hfal; simp [optTruthy, ht] at hfal
    · intro w' v' hw' ht' hv'
      have hww : w = w' := by rw [hw] at hw'; exact (Option.some.injEq _ _).mp hw'
      subst hww
      have hvv : v = v' := by rw [hv] at hv'; exact (Except.ok.injEq _ _).mp hv'
      subst hvv
      exact ⟨by rw [hub, hval], by rw [hlook, hval]⟩

/-- C9: `UBCORE` is optional in the ABFE and RBFE builders: when absent or
falsy the soft-core ubcore is 0 (0 kcal/mol) and `cparams["ATMUbcore"]` is 0;
when supplied truthy, the ubcore and `cparams["ATMUbcore"]` are the parsed
value converted to kJ/mol. -/
theorem C9_ubcore_optional :
    (∀ (b : String) (kw : KWDict) (pf cf : String) (p : Prmtop) (i : Inpcrd)
       (st0 st : OMMSystemState),
       OMMSystemAmberABFE.init b kw pf cf = .ok st0 →
       OMMSystemAmberABFE.create_system st0 p i = .ok st →
       ∃ f, st.atmforce = some f ∧
         ((KWDict.get kw "UBCORE" = none ∨ optTruthy (KWDict.get kw "UBCORE") = false) →
            f.ubcore.eqv 0 ∧ ∃ c, lookupParam st.cparams "ATMUbcore" = some c ∧ c.eqv 0) ∧
         (∀ w v, KWDict.get kw "UBCORE" = some w → w.truthy = true →
            pyFloat (some w) = .ok v →
            f.ubcore = v * kilocalorie_per_mole ∧
            lookupParam st.cparams "ATMUbcore" = some (v * kilocalorie_per_mole))) ∧
    (∀ (b : String) (kw : KWDict) (pf cf : String) (p : Prmtop) (i : Inpcrd)
       (st0 st : OMMSystemState),
       OMMSystemAmberRBFE.init b kw pf cf = .ok st0 →
       OMMSystemAmberRBFE.create_system st0 p i = .ok st →
       ∃ f, st.atmforce = some f ∧
         ((KWDict.get kw "UBCORE" = none ∨ optTruthy (KWDict.get kw "UBCORE") = false) →
            f.ubcore.eqv 0 ∧ ∃ c, lookupParam st.cparams "ATMUbcore" = some c ∧ c.eqv 0) ∧
         (∀ w v, KWDict.get kw "UBCORE" = some w → w.truthy = true →
            pyFloat (some w) = .ok v →
            f.ubcore = v * kilocalorie_per_mole ∧
            lookupParam st.cparams "ATMUbcore" = some (v * kilocalorie_per_mole))) := by
  constructor
  · intro b kw pf cf p i st0 st hinit hcr
    obtain ⟨hkw, -, hcp0, -, -⟩ := init_fields (Or.inr (Or.inl hinit))
    obtain ⟨lig, ligR, rcptR, sys1, sys2, sc, displ, atmf1,
      -, -, -, -, -, hsc, -, happ, hst⟩ := ABFE_create_ok hcr
    rw [hkw] at hsc
    obtain ⟨ps, -, hatm⟩ := applyDispl_ok happ
    refine ⟨atmf1.setForceGroup 3, by rw [hst], ?_⟩
    have hub : (atmf1.setForceGroup 3).ubcore = sc.2.1 := by rw [hatm]; rfl
    have hcp : st.cparams = setParam (setParam (setParam []
        "ATMUmax" sc.1) "ATMUbcore" sc.2.1) "ATMAcore" sc.2.2 := by
      rw [hst, ← hcp0]
    exact ubcore_conclusion hsc hub st.cparams hcp
  · intro b kw pf cf p i st0 st hinit hcr
    obtain ⟨hkw, -, hcp0, -, -⟩ := init_fields (Or.inr (Or.inr hinit))
    obtain ⟨lig1, lig2, lig1R, lig2R, rcptR, displ, sys1, ref1, ref2,
      kfdispl, ktheta, kpsi, sys2, sc, atmf1, atmf2,
      -, -, -, -, -, -, -, -, -, -, -, -, -, hsc, happ1, happ2, hst⟩ := RBFE_create_ok hcr
    rw [hkw] at hsc
    obtain ⟨ps2, -, hatm2⟩ := applyDispl_ok happ2
    obtain ⟨ps1, -, hatm1⟩ := applyDispl_ok happ1
    refine ⟨atmf2.setForceGroup 3, by rw [hst], ?_⟩
    have hub : (atmf2.setForceGroup 3).ubcore = sc.2.1 := by
      rw [hatm2, hatm1]
      rfl
    have hcp : st.cparams = setParam (setParam (setParam []
        "ATMUmax" sc.1) "ATMUbcore" sc.2.1) "ATMAcore" sc.2.2 := by
      rw [hst, ← hcp0]
    exact ubcore_conclusion hsc hub st.cparams hcp

/-- C9 witness: the `UBCORE` behavior on a concrete ABFE run (keyword
supplied as "100") and a concrete RBFE run (keyword absent). -/
theorem C9_ubcore_optional_witness :
    (∃ f, abfeSt1.atmforce = some f ∧
      ((KWDict.get kwABFE "UBCORE" = none ∨ optTruthy (KWDict.get kwABFE "UBCORE") = false) →
         f.ubcore.eqv 0 ∧ ∃ c, lookupParam abfeSt1.cparams "ATMUbcore" = some c ∧ c.eqv 0) ∧
      (∀ w v, KWDict.get kwABFE "UBCORE" = some w → w.truthy = true →
         pyFloat (some w) = .ok v →
         f.ubcore = v * kilocalorie_per_mole ∧
         lookupParam abfeSt1.cparams "ATMUbcore" = some (v * kilocalorie_per_mole))) ∧
    (∃ f, rbfeSt1.atmforce = some f ∧
      ((KWDict.get kwRBFE "UBCORE" = none ∨ optTruthy (KWDict.get kwRBFE "UBCORE") = false) →
         f.ubcore.eqv 0 ∧ ∃ c, lookupParam rbfeSt1.cparams "ATMUbcore" = some c ∧ c.eqv 0) ∧
      (∀ w v, KWDict.get kwRBFE "UBCORE" = some w → w.truthy = true →
         pyFloat (some w) = .ok v →
         f.ubcore = v * kilocalorie_per_mole ∧
         lookupParam rbfeSt1.cparams "ATMUbcore" = some (v * kilocalorie_per_mole))) :=
  ⟨C9_ubcore_optional.1 "t" kwABFE "x.prmtop" "x.inpcrd" egPrmtop egInpcrd
      abfeSt0 abfeSt1 rfl rfl,
   C9_ubcore_optional.2 "t" kwRBFE "x.prmtop" "x.inpcrd" egPrmtop egInpcrdNoBox
      rbfeSt0 rbfeSt1 rfl rfl⟩

/-- C7: the keyword dictionary is only read, never mutated: the `keywords`
reference of every builder equals the dictionary passed to `__init__` after
`__init__`, and is unchanged by every `create_system`. -/
theorem C7_keywords_never_mutated :
    (∀ (b : String) (kw : KWDict) (st : OMMSystemState),
       OMMSystem.init b kw = .ok st → st.keywords = kw) ∧
    (∀ (b : String) (kw : KWDict) (pf cf : String) (st : OMMSystemState),
       OMMSystemAmberTRE.init b kw pf cf = .ok st → st.keywords = kw) ∧
    (∀ (b : String) (kw : KWDict) (pf cf : String) (st : OMMSystemState),
       OMMSystemAmberABFE.init b kw pf cf = .ok st → st.keywords = kw) ∧
    (∀ (b : String) (kw : KWDict) (pf cf : String) (st : OMMSystemState),
       OMMSystemAmberRBFE.init b kw pf cf = .ok st → st.keywords = kw) ∧
    (∀ (st0 st : OMMSystemState) (p : Prmtop) (i : Inpcrd),
       OMMSystemAmberTRE.create_system st0 p i = .ok st → st.keywords = st0.keywords) ∧
    (∀ (st0 st : OMMSystemState) (p : Prmtop) (i : Inpcrd),
       OMMSystemAmberABFE.create_system st0 p i = .ok st → st.keywords = st0.keywords) ∧
    (∀ (st0 st : OMMSystemState) (p : Prmtop) (i : Inpcrd),
       OMMSystemAmberRBFE.create_system st0 p i = .ok st → st.keywords = st0.keywords) := by
  refine ⟨?_, ?_, ?_, ?_, ?_, ?_, ?_⟩
  · intro b kw st h
    obtain ⟨fc, ts, -, -, rfl⟩ := OMMSystem_init_ok h
    rfl
  · intro b kw pf cf st h
    exact (init_fields (Or.inl h)).1
  · intro b kw pf cf st h
    exact (init_fields (Or.inr (Or.inl h))).1
  · intro b kw pf cf st h
    exact (init_fields (Or.inr (Or.inr h))).1
  · intro st0 st p i h
    rw [TRE_create_ok h]
  · intro st0 st p i h
    obtain ⟨lig, ligR, rcptR, sys1, sys2, sc, displ, atmf1,
      -, -, -, -, -, -, -, -, hst⟩ := ABFE_create_ok h
    rw [hst]
  · intro st0 st p i h
    obtain ⟨lig1, lig2, lig1R, lig2R, rcptR, displ, sys1, ref1, ref2,
      kfdispl, ktheta, kpsi, sys2, sc, atmf1, atmf2,
      -, -, -, -, -, -, -, -, -, -, -, -, -, -, -, -, hst⟩ := RBFE_create_ok h
    rw [hst]

/-- C7 witness: keyword preservation on the concrete runs. -/
theorem C7_keywords_never_mutated_witness :
    treSt0.keywords = kwBase ∧ abfeSt0.keywords = kwABFE ∧ rbfeSt0.keywords = kwRBFE ∧
    treSt1.keywords = treSt0.keywords ∧ abfeSt1.keywords = abfeSt0.keywords ∧
    rbfeSt1.keywords = rbfeSt0.keywords :=
  ⟨C7_keywords_never_mutated.2.1 "t" kwBase "x.prmtop" "x.inpcrd" treSt0 rfl,
   C7_keywords_never_mutated.2.2.1 "t" kwABFE "x.prmtop" "x.inpcrd" abfeSt0 rfl,
   C7_keywords_never_mutated.2.2.2.1 "t" kwRBFE "x.prmtop" "x.inpcrd" rbfeSt0 rfl,
   C7_keywords_never_mutated.2.2.2.2.1 treSt0 treSt1 egPrmtop egInpcrd rfl,
   C7_keywords_never_mutated.2.2.2.2.2.1 abfeSt0 abfeSt1 egPrmtop egInpcrd rfl,
   C7_keywords_never_mutated.2.2.2.2.2.2 rbfeSt0 rbfeSt1 egPrmtop egInpcrdNoBox rfl⟩

/-- C5: after a successful `create_system` the ATM force holds exactly one
particle per topology atom, the particle index stored at slot `k` is `k`
itself, and the displacement parameters are: in ABFE, the parsed
`DISPLACEMENT` vector on the `LIGAND_ATOMS` and zero elsewhere; in RBFE
(with disjoint ligand atom sets), the vector on `LIGAND1_ATOMS`, its
negation on `LIGAND2_ATOMS`, and zero elsewhere. -/
theorem C5_atm_particle_displacements :
    (∀ (st0 st : OMMSystemState) (p : Prmtop) (i : Inpcrd)
       (lig : List Int) (displ : List Frac),
       OMMSystemAmberABFE.create_system st0 p i = .ok st →
       readLigAtoms st0.keywords "LIGAND_ATOMS" "Error: LIGAND_ATOMS is required" = .ok lig →
       ABFEreadDispl st0.keywords = .ok displ →
       ∃ f, st.atmforce = some f ∧ f.particles.length = p.topology.numAtoms ∧
         ∀ k, k < p.topology.numAtoms →
           (((k : Int) ∈ lig → ∃ d0 d1 d2,
               displ.get? 0 = some d0 ∧ displ.get? 1 = some d1 ∧ displ.get? 2 = some d2 ∧
               f.particles.get? k = some ((k : Int), d0, d1, d2)) ∧
            ((k : Int) ∉ lig → f.particles.get? k = some ((k : Int), 0, 0, 0)))) ∧
    (∀ (st0 st : OMMSystemState) (p : Prmtop) (i : Inpcrd)
       (lig1 lig2 : List Int) (displ : List Frac),
       OMMSystemAmberRBFE.create_system st0 p i = .ok st →
       readLigAtoms st0.keywords "LIGAND1_ATOMS" "Error: LIGAND1_ATOMS is required" = .ok lig1 →
       readLigAtoms st0.keywords "LIGAND2_ATOMS" "Error: LIGAND2_ATOMS is required" = .ok lig2 →
       RBFEreadDispl st0.keywords = .ok displ →
       (∀ x, x ∈ lig1 → x ∉ lig2) →
       ∃ f, st.atmforce = some f ∧ f.particles.length = p.topology.numAtoms ∧
         ∀ k, k < p.topology.numAtoms →
           (((k : Int) ∈ lig1 → ∃ d0 d1 d2,
               displ.get? 0 = some d0 ∧ displ.get? 1 = some d1 ∧ displ.get? 2 = some d2 ∧
               f.particles.get? k = some ((k : Int), d0, d1, d2)) ∧
            ((k : Int) ∈ lig2 → ∃ d0 d1 d2,
               displ.get? 0 = some d0 ∧ displ.get? 1 = some d1 ∧ displ.get? 2 = some d2 ∧
               f.particles.get? k = some ((k : Int), -d0, -d1, -d2)) ∧
            ((k : Int) ∉ lig1 → (k : Int) ∉ lig2 →
               f.particles.get? k = some ((k : Int), 0, 0, 0)))) := by
  constructor
  · intro st0 st p i lig displ hcr hlig0 hdispl0
    obtain ⟨lig', ligR, rcptR, sys1, sys2, sc, displ', atmf1,
      hlig, -, -, -, -, -, hdispl, happ, hst⟩ := ABFE_create_ok hcr
    rw [hlig0] at hlig
    have hligE := (PyResult.ok.injEq _ _).mp hlig
    subst hligE
    rw [hdispl0] at hdispl
    have hdisplE := (PyResult.ok.injEq _ _).mp hdispl
    subst hdisplE
    obtain ⟨ps, hloop, hatm⟩ := applyDispl_ok happ
    have hstart : ((mkATMMetaForce sc.1 sc.2.1 sc.2.2).addAllParticles
        p.topology.numAtoms).particles =
        (List.range p.topology.numAtoms).map
          (fun (j : Nat) => ((j : Int), (0 : Frac), (0 : Frac), (0 : Frac))) := by
      simp [mkATMMetaForce, ATMMetaForce.addAllParticles]
    rw [hstart] at hloop
    refine ⟨atmf1.setForceGroup 3, by rw [hst], ?_, ?_⟩
    · rw [hatm]
      show ps.length = p.topology.numAtoms
      rw [displLoop_length hloop, rangeParticles_length]
    · intro k hk
      constructor
      · intro hmem
        obtain ⟨d0, d1, d2, hp0, hp1, hp2, hget⟩ := displLoop_get_mem hloop hmem
        refine ⟨d0, d1, d2, pyIndex_ok hp0, pyIndex_ok hp1, pyIndex_ok hp2, ?_⟩
        rw [hatm]
        exact hget
      · intro hmem
        rw [hatm]
        show ps.get? k = _
        rw [displLoop_get_notMem hloop hmem, rangeParticles_get? hk]
  · intro st0 st p i lig1 lig2 displ hcr hlig10 hlig20 hdispl0 hdisj
    obtain ⟨lig1', lig2', lig1R, lig2R, rcptR, displ', sys1, ref1, ref2,
      kfdispl, ktheta, kpsi, sys2, sc, atmf1, atmf2,
      hlig1, hlig2, -, -, -, hdispl, -, -, -, -, -, -, -, -, happ1, happ2, hst⟩ :=
      RBFE_create_ok hcr
    rw [hlig10] at hlig1
    have h1E := (PyResult.ok.injEq _ _).mp hlig1
    subst h1E
    rw [hlig20] at hlig2
    have h2E := (PyResult.ok.injEq _ _).mp hlig2
    subst h2E
    rw [hdispl0] at hdispl
    have hdE := (PyResult.ok.injEq _ _).mp hdispl
    subst hdE
    obtain ⟨ps1, hloop1, hatm1⟩ := applyDispl_ok happ1
    obtain ⟨ps2, hloop2, hatm2⟩ := applyDispl_ok happ2
    have hstart : ((mkATMMetaForce sc.1 sc.2.1 sc.2.2).addAllParticles
        p.topology.numAtoms).particles =
        (List.range p.topology.numAtoms).map
          (fun (j : Nat) => ((j : Int), (0 : Frac), (0 : Frac), (0 : Frac))) := by
      simp [mkATMMetaForce, ATMMetaForce.addAllParticles]
    rw [hstart] at hloop1
    have hmid : atmf1.particles = ps1 := by rw [hatm1]
    rw [hmid] at hloop2
    refine ⟨atmf2.setForceGroup 3, by rw [hst], ?_, ?_⟩
    · rw [hatm2]
      show ps2.length = p.topology.numAtoms
      rw [displLoop_length hloop2, displLoop_length hloop1, rangeParticles_length]
    · intro k hk
      refine ⟨?_, ?_, ?_⟩
      · intro hmem1
        have hnot2 : (k : Int) ∉ lig2 := hdisj _ hmem1
        obtain ⟨d0, d1, d2, hp0, hp1, hp2, hget⟩ := displLoop_get_mem hloop1 hmem1
        refine ⟨d0, d1, d2, pyIndex_ok hp0, pyIndex_ok hp1, pyIndex_ok hp2, ?_⟩
        rw [hatm2]
        show ps2.get? k = _
        rw [displLoop_get_notMem hloop2 hnot2]
        exact hget
      · intro hmem2
        obtain ⟨d0, d1, d2, hp0, hp1, hp2, hget⟩ := displLoop_get_mem hloop2 hmem2
        exact ⟨d0, d1, d2, pyIndex_ok hp0, pyIndex_ok hp1, pyIndex_ok hp2,
          by rw [hatm2]; exact hget⟩
      · intro hnot1 hnot2
        rw [hatm2]
        show ps2.get? k = _
        rw [displLoop_get_notMem hloop2 hnot2, displLoop_get_notMem hloop1 hnot1,
          rangeParticles_get? hk]

/-- The parsed displacement vectors of the concrete runs. -/
def abfeDispl : List Frac := (ABFEreadDispl kwABFE).getOk []

def rbfeDispl : List Frac := (RBFEreadDispl kwRBFE).getOk []

/-- C5 witness: the particle characterization applied to the concrete ABFE
run (ligand atoms 0, 1 of 4) and RBFE run (ligand-1 atoms 0, 1 and ligand-2
atoms 2, 3 of 4). -/
theorem C5_atm_particle_displacements_witness :
    (∃ f, abfeSt1.atmforce = some f ∧ f.particles.length = egPrmtop.topology.numAtoms ∧
      ∀ k, k < egPrmtop.topology.numAtoms →
        (((k : Int) ∈ [(0 : Int), 1] → ∃ d0 d1 d2,
            abfeDispl.get? 0 = some d0 ∧ abfeDispl.get? 1 = some d1 ∧
            abfeDispl.get? 2 = some d2 ∧
            f.particles.get? k = some ((k : Int), d0, d1, d2)) ∧
         ((k : Int) ∉ [(0 : Int), 1] → f.particles.get? k = some ((k : Int), 0, 0, 0)))) ∧
    (∃ f, rbfeSt1.atmforce = some f ∧ f.particles.length = egPrmtop.topology.numAtoms ∧
      ∀ k, k < egPrmtop.topology.numAtoms →
        (((k : Int) ∈ [(0 : Int), 1] → ∃ d0 d1 d2,
            rbfeDispl.get? 0 = some d0 ∧ rbfeDispl.get? 1 = some d1 ∧
            rbfeDispl.get? 2 = some d2 ∧
            f.particles.get? k = some ((k : Int), d0, d1, d2)) ∧
         ((k : Int) ∈ [(2 : Int), 3] → ∃ d0 d1 d2,
            rbfeDispl.get? 0 = some d0 ∧ rbfeDispl.get? 1 = some d1 ∧
            rbfeDispl.get? 2 = some d2 ∧
            f.particles.get? k = some ((k : Int), -d0, -d1, -d2)) ∧
         ((k : Int) ∉ [(0 : Int), 1] → (k : Int) ∉ [(2 : Int), 3] →
            f.particles.get? k = some ((k : Int), 0, 0, 0)))) :=
  ⟨C5_atm_particle_displacements.1 abfeSt0 abfeSt1 egPrmtop egInpcrd
      [0, 1] abfeDispl rfl rfl rfl,
   C5_atm_particle_displacements.2 rbfeSt0 rbfeSt1 egPrmtop egInpcrdNoBox
      [0, 1] [2, 3] rbfeDispl rfl rfl rfl rfl (by decide)⟩

/-- RBFE keywords in which atom 1 is listed in both `LIGAND1_ATOMS` and
`LIGAND2_ATOMS`. -/
def kwRBFEoverlap : KWDict := (kwRBFE.erase "LIGAND2_ATOMS") ++
  [("LIGAND2_ATOMS", KwVal.list ["1", "2"])]

def rbfeOvSt0 : OMMSystemState :=
  (OMMSystemAmberRBFE.init "t" kwRBFEoverlap "x.prmtop" "x.inpcrd").getOk emptyState

def rbfeOvSt1 : OMMSystemState :=
  (OMMSystemAmberRBFE.create_system rbfeOvSt0 egPrmtop egInpcrdNoBox).getOk emptyState

def rbfeOvDispl : List Frac := (RBFEreadDispl kwRBFEoverlap).getOk []

/-- C5 counterexample: in an RBFE run whose ligand atom lists overlap (atom 1
is in both), the run returns normally, atom 1 is listed in `LIGAND1_ATOMS`,
and yet its stored x-displacement is NOT the `DISPLACEMENT` x-component (the
ligand-2 loop runs last and overwrites it with the negation), refuting
"every atom in LIGAND1_ATOMS carries the DISPLACEMENT vector" as a statement
about all keyword dictionaries. -/
theorem C5_counterexample_overlap :
    KWDict.get kwRBFEoverlap "LIGAND1_ATOMS" = some (KwVal.list ["0", "1"]) ∧
    KWDict.get kwRBFEoverlap "LIGAND2_ATOMS" = some (KwVal.list ["1", "2"]) ∧
    OMMSystemAmberRBFE.create_system rbfeOvSt0 egPrmtop egInpcrdNoBox = .ok rbfeOvSt1 ∧
    (rbfeOvDispl.getD 0 0).eqv 22 ∧
    rbfeOvSt1.atmforce.map (fun f =>
      (f.particles.get? 1).map (fun q => decide (q.2.1.eqv (rbfeOvDispl.getD 0 0))))
      = some (some false) :=
  ⟨rfl, rfl, rfl, by decide, rfl⟩
